import Mathlib

/-!
Verification of the Semantic Query Builder subsystem of the
mos_tattoo_backend repository (src/dashboards/query_builder.py and
src/dashboards/models.py) against its natural-language specification.

The Python code is shallowly embedded: dynamically-typed Python values are
modelled by the inductive `PyVal`, dictionaries by insertion-ordered
association lists, and functions that can raise by `Except String`.
-/

/-- Model of a Python datetime object (datetime.datetime). -/
structure PyDateTime where
  year : Nat
  month : Nat
  day : Nat
  hour : Nat
  minute : Nat
  second : Nat
  usec : Nat
  deriving Repr, DecidableEq

/-- Scalar Python values that can appear inside a list value. -/
inductive PyScalar where
  | none : PyScalar
  | str (s : String) : PyScalar
  | int (n : Int) : PyScalar
  | dt (d : PyDateTime) : PyScalar
  deriving Repr, DecidableEq

/-- Dynamically-typed Python values flowing through the query builder and the
result normalizer: None, str, int, datetime, or a (flat) list of scalars. -/
inductive PyVal where
  | none : PyVal
  | str (s : String) : PyVal
  | int (n : Int) : PyVal
  | dt (d : PyDateTime) : PyVal
  | list (l : List PyScalar) : PyVal
  deriving Repr, DecidableEq

/-- Python truthiness of a value (used by `if value:` tests in the source). -/
def PyVal.truthy : PyVal → Bool
  | .none => false
  | .str s => s ≠ ""
  | .int n => n ≠ 0
  | .dt _ => true
  | .list l => !l.isEmpty

/-- Truthiness of an optional string (`if x:` where x is None or a str). -/
def truthyStr : Option String → Bool
  | some s => s ≠ ""
  | Option.none => false

/-- Truthiness of an optional Python value. -/
def truthyVal : Option PyVal → Bool
  | some v => v.truthy
  | Option.none => false

/-- Left-pad a numeral with zeros to the given width. -/
def padNum (width : Nat) (n : Nat) : String :=
  let s := toString n
  let k := width - s.length
  String.mk (List.replicate k '0') ++ s

/-- Python str() of a datetime ("YYYY-MM-DD HH:MM:SS[.ffffff]"). -/
def PyDateTime.pyStr (d : PyDateTime) : String :=
  padNum 4 d.year ++ "-" ++ padNum 2 d.month ++ "-" ++ padNum 2 d.day ++ " "
    ++ padNum 2 d.hour ++ ":" ++ padNum 2 d.minute ++ ":" ++ padNum 2 d.second
    ++ (if d.usec = 0 then "" else "." ++ padNum 6 d.usec)

/-- Python repr() of a scalar (used when a list is converted to a string). -/
def PyScalar.pyRepr : PyScalar → String
  | .none => "None"
  | .str s => "'" ++ s ++ "'"
  | .int n => toString n
  | .dt d => "datetime.datetime(" ++ toString d.year ++ ", " ++ toString d.month
      ++ ", " ++ toString d.day ++ ", " ++ toString d.hour ++ ", " ++ toString d.minute
      ++ ", " ++ toString d.second ++ ", " ++ toString d.usec ++ ")"

/-- Python str() of a value. -/
def PyVal.pyStr : PyVal → String
  | .none => "None"
  | .str s => s
  | .int n => toString n
  | .dt d => d.pyStr
  | .list l => "[" ++ String.intercalate ", " (l.map PyScalar.pyRepr) ++ "]"

/-- Python str.join semantics: join a list of strings with a separator. -/
def joinSep (sep : String) : List String → String
  | [] => ""
  | [x] => x
  | x :: y :: rest => x ++ sep ++ joinSep sep (y :: rest)

/-- Python str.lower (ASCII case mapping, which covers the inputs at hand). -/
def pyLower (s : String) : String := String.mk (s.data.map Char.toLower)

/-- Python str.upper. -/
def pyUpper (s : String) : String := String.mk (s.data.map Char.toUpper)

/-- Python str.strip(): drop leading and trailing whitespace. -/
def pyStrip (s : String) : String :=
  String.mk (((s.data.dropWhile Char.isWhitespace).reverse.dropWhile
    Char.isWhitespace).reverse)

/-- Python str.startswith. -/
def pyStartsWith (s pre : String) : Bool := pre.data.isPrefixOf s.data

/-- Boolean substring test (Python `needle in hay`). -/
def containsSubB (hay needle : String) : Bool :=
  decide (needle.data <:+: hay.data)

/-- Propositional substring relation (needle occurs inside hay). -/
def ContainsSub (hay needle : String) : Prop :=
  needle.data <:+: hay.data

instance (hay needle : String) : Decidable (ContainsSub hay needle) := by
  unfold ContainsSub
  infer_instance

/-! ## Embedding of src/dashboards/query_builder.py -/

namespace SemanticTypeNames

def DATETIME : String := "datetime"

def MEASURE : String := "measure"

def DIMENSION : String := "dimension"

end SemanticTypeNames

/-- Metadata of one dataset column (class ColumnMetadata). -/
structure ColumnMetadata where
  name : String
  database_type : String
  semantic_type : String
  nullable : Bool
  allowed_aggregations : List String
  allowed_granularities : List String
  deriving Repr, DecidableEq

instance : Inhabited ColumnMetadata := ⟨⟨"", "", "", true, [], []⟩⟩

/-- The datetime type-name list inside ColumnMetadata.infer_semantic_type. -/
def datetime_types : List String :=
  ["timestamp", "timestamptz", "date", "time", "timetz", "interval"]

/-- The numeric type-name list inside ColumnMetadata.infer_semantic_type. -/
def numeric_types : List String :=
  ["integer", "int", "bigint", "smallint", "decimal", "numeric", "real",
   "double precision", "float", "money"]

/-- ColumnMetadata.infer_semantic_type: case-insensitive substring matching of
the database type name against the two fixed lists, defaulting to dimension. -/
def infer_semantic_type (database_type : String) : String :=
  let db_type := pyLower database_type
  if datetime_types.any (fun dt => containsSubB db_type dt) then
    SemanticTypeNames.DATETIME
  else if numeric_types.any (fun nt => containsSubB db_type nt) then
    SemanticTypeNames.MEASURE
  else
    SemanticTypeNames.DIMENSION

/-- ColumnMetadata.get_allowed_aggregations. -/
def get_allowed_aggregations (semantic_type : String) : List String :=
  if semantic_type = SemanticTypeNames.MEASURE then
    ["sum", "avg", "count", "count_distinct", "min", "max", "median"]
  else if semantic_type = SemanticTypeNames.DIMENSION then
    ["count", "count_distinct"]
  else if semantic_type = SemanticTypeNames.DATETIME then
    ["count", "min", "max"]
  else []

/-- ColumnMetadata.get_allowed_granularities. -/
def get_allowed_granularities (semantic_type : String) : List String :=
  if semantic_type = SemanticTypeNames.DATETIME then
    ["hour", "day", "week", "month", "quarter", "year"]
  else []

/-- TimeGranularity.get_date_trunc_format: dict lookup with default "day". -/
def get_date_trunc_format (granularity : String) : String :=
  if granularity = "hour" then "hour"
  else if granularity = "day" then "day"
  else if granularity = "week" then "week"
  else if granularity = "month" then "month"
  else if granularity = "quarter" then "quarter"
  else if granularity = "year" then "year"
  else "day"

/-- The _columns_index dict built in QueryBuilder.__init__: on duplicate
column names the later entry wins, exactly like a Python dict comprehension. -/
def columnsIndexGet (cols : List ColumnMetadata) (n : String) : Option ColumnMetadata :=
  cols.foldl (fun acc c => if c.name = n then some c else acc) Option.none

/-- QueryBuilder.validate_column. -/
def validate_column (cols : List ColumnMetadata) (column_name : String) : Bool :=
  (columnsIndexGet cols column_name).isSome

/-- QueryBuilder.validate_aggregation (the aggregation argument comes from
dict.get and can be missing, which Python represents as None). -/
def validate_aggregation (cols : List ColumnMetadata) (column_name : String)
    (aggregation : Option String) : Bool :=
  match columnsIndexGet cols column_name with
  | Option.none => false
  | some md =>
    match aggregation with
    | some a => md.allowed_aggregations.contains a
    | Option.none => false

/-- QueryBuilder.validate_granularity. -/
def validate_granularity (cols : List ColumnMetadata) (column_name : String)
    (granularity : String) : Bool :=
  match columnsIndexGet cols column_name with
  | Option.none => false
  | some md => md.allowed_granularities.contains granularity

/-- One y-axis metric dict; only the "field" and "aggregation" keys are read
by build_analytical_query, via dict.get (absent key = None). -/
structure Metric where
  field : Option String
  aggregation : Option String
  deriving Repr, DecidableEq

/-- The structured filters dict accepted by build_analytical_query, with one
component per key the source reads. -/
structure Filters where
  date_start : Option PyVal
  date_end : Option PyVal
  dimensions : List (String × PyVal)
  dynamic_filters : List (String × List (String × PyVal))
  custom : Option String
  where_clause : Option String
  block_filter : Option String
  deriving Repr, DecidableEq

/-- Python str() of an optional string, as interpolated by an f-string. -/
def optPyText : Option String → String
  | some s => s
  | Option.none => "None"

/-- The metric-validation loop of build_analytical_query: returns the first
error message, if any. -/
def validateMetrics (cols : List ColumnMetadata) : List Metric → Option String
  | [] => Option.none
  | m :: rest =>
    if !(match m.field with
         | some f => validate_column cols f
         | Option.none => false) then
      some ("Campo da métrica '" ++ optPyText m.field ++ "' não existe no dataset")
    else if !(validate_aggregation cols (m.field.getD "") m.aggregation) then
      some ("Agregação '" ++ optPyText m.aggregation ++ "' não permitida para '"
            ++ optPyText m.field ++ "'")
    else validateMetrics cols rest

/-- The date_start/date_end filter block (old format), applied only when an
x-axis field is configured and the bound is truthy. -/
def dateFilterSection (x_axis_field : Option String) (f : Filters) :
    List String × List (String × PyVal) :=
  let xf := x_axis_field.getD ""
  let p1 : List String × List (String × PyVal) :=
    if truthyStr x_axis_field && truthyVal f.date_start then
      ([xf ++ " >= %(date_start)s"], [("date_start", f.date_start.getD PyVal.none)])
    else ([], [])
  let p2 : List String × List (String × PyVal) :=
    if truthyStr x_axis_field && truthyVal f.date_end then
      ([xf ++ " <= %(date_end)s"], [("date_end", f.date_end.getD PyVal.none)])
    else ([], [])
  (p1.1 ++ p2.1, p1.2 ++ p2.2)

/-- The dimension-filter loop: unknown fields are skipped with `continue`. -/
def dimensionSection (cols : List ColumnMetadata) :
    List (String × PyVal) → List String × List (String × PyVal)
  | [] => ([], [])
  | (dim_field, dim_values) :: rest =>
    let r := dimensionSection cols rest
    if validate_column cols dim_field then
      ((dim_field ++ " = ANY(%(dim_" ++ dim_field ++ ")s)") :: r.1,
       ("dim_" ++ dim_field, dim_values) :: r.2)
    else r

/-- One (operator, value) condition of a dynamic filter. Operators outside
the fixed set produce nothing; "in" requires a non-empty list value. -/
def dynCondition (field operator : String) (value : PyVal) :
    List String × List (String × PyVal) :=
  let param_name := "dyn_" ++ field ++ "_" ++ operator
  if operator = "gte" then
    ([field ++ " >= %(" ++ param_name ++ ")s"], [(param_name, value)])
  else if operator = "lte" then
    ([field ++ " <= %(" ++ param_name ++ ")s"], [(param_name, value)])
  else if operator = "gt" then
    ([field ++ " > %(" ++ param_name ++ ")s"], [(param_name, value)])
  else if operator = "lt" then
    ([field ++ " < %(" ++ param_name ++ ")s"], [(param_name, value)])
  else if operator = "eq" then
    ([field ++ " = %(" ++ param_name ++ ")s"], [(param_name, value)])
  else if operator = "in" then
    match value with
    | PyVal.list l =>
      if l.length > 0 then
        ([field ++ " = ANY(%(" ++ param_name ++ ")s)"], [(param_name, value)])
      else ([], [])
    | _ => ([], [])
  else ([], [])

/-- The inner loop over one dynamic filter's conditions dict. -/
def dynConditions (field : String) :
    List (String × PyVal) → List String × List (String × PyVal)
  | [] => ([], [])
  | (op, v) :: rest =>
    let c := dynCondition field op v
    let r := dynConditions field rest
    (c.1 ++ r.1, c.2 ++ r.2)

/-- The dynamic-filters loop: unknown fields are skipped with `continue`. -/
def dynamicSection (cols : List ColumnMetadata) :
    List (String × List (String × PyVal)) → List String × List (String × PyVal)
  | [] => ([], [])
  | (field, conditions) :: rest =>
    let c := if validate_column cols field then dynConditions field conditions
             else ([], [])
    let r := dynamicSection cols rest
    (c.1 ++ r.1, c.2 ++ r.2)

/-- The custom/where_clause trusted filter fragment (Python `a or b` keeps the
first truthy operand, and the fragment is emitted only when truthy). -/
def customFilterSection (f : Filters) : List String :=
  let custom_filter := if truthyStr f.custom then f.custom else f.where_clause
  if truthyStr custom_filter then ["(" ++ custom_filter.getD "" ++ ")"] else []

/-- The block_filter trusted filter fragment. -/
def blockFilterSection (f : Filters) : List String :=
  if truthyStr f.block_filter then ["(" ++ f.block_filter.getD "" ++ ")"] else []

/-- The whole filter block of build_analytical_query: where-clauses and the
parameter dict, accumulated in the source's fixed order. -/
def buildWhere (cols : List ColumnMetadata) (x_axis_field : Option String) :
    Option Filters → List String × List (String × PyVal)
  | Option.none => ([], [])
  | some f =>
    let d := dateFilterSection x_axis_field f
    let dims := dimensionSection cols f.dimensions
    let dyn := dynamicSection cols f.dynamic_filters
    (d.1 ++ dims.1 ++ dyn.1 ++ customFilterSection f ++ blockFilterSection f,
     d.2 ++ dims.2 ++ dyn.2)

/-- The x-axis select expression ('Total' literal when no axis is set, a
DATE_TRUNC bucket for a datetime axis with granularity, the raw field else). -/
def axisSelectPart (cols : List ColumnMetadata)
    (x_axis_field x_axis_granularity : Option String) : String :=
  if truthyStr x_axis_field then
    let xf := x_axis_field.getD ""
    let x_metadata := (columnsIndexGet cols xf).getD default
    if x_metadata.semantic_type = SemanticTypeNames.DATETIME
        && truthyStr x_axis_granularity then
      "DATE_TRUNC('" ++ get_date_trunc_format (x_axis_granularity.getD "")
        ++ "', " ++ xf ++ ") AS metric_date"
    else xf ++ " AS metric_date"
  else "'Total' AS metric_date"

/-- The select expression of the idx-th metric (0-based idx, 1-based alias). -/
def metricSelectPart (idx : Nat) (metric : Metric) : String :=
  let field := metric.field.getD ""
  let agg := pyUpper (metric.aggregation.getD "")
  let al := "metric_value_" ++ toString (idx + 1)
  if agg = "COUNT_DISTINCT" then
    "COUNT(DISTINCT " ++ field ++ ") AS " ++ al
  else if agg = "MEDIAN" then
    "PERCENTILE_CONT(0.5) WITHIN GROUP (ORDER BY " ++ field ++ ") AS " ++ al
  else
    agg ++ "(" ++ field ++ ") AS " ++ al

/-- The select_parts list of build_analytical_query. -/
def selectParts (cols : List ColumnMetadata) (x_axis_field x_axis_granularity : Option String)
    (y_axis_metrics : List Metric) (series_field : Option String) : List String :=
  [axisSelectPart cols x_axis_field x_axis_granularity]
  ++ y_axis_metrics.enum.map (fun p => metricSelectPart p.1 p.2)
  ++ (if truthyStr series_field then [series_field.getD "" ++ " AS series_key"] else [])

/-- The group_by_parts list (metric_date iff an axis, series_key iff a series). -/
def groupByParts (x_axis_field series_field : Option String) : List String :=
  (if truthyStr x_axis_field then ["metric_date"] else [])
  ++ (if truthyStr series_field then ["series_key"] else [])

/-- The GROUP BY line, emitted only when group_by_parts is non-empty. -/
def groupBySection (x_axis_field series_field : Option String) : List String :=
  let g := groupByParts x_axis_field series_field
  if g.isEmpty then [] else ["GROUP BY " ++ joinSep ", " g]

/-- The ORDER BY line, emitted only when both order_by and the axis are truthy. -/
def orderBySection (order_by x_axis_field : Option String) : List String :=
  if truthyStr order_by && truthyStr x_axis_field then
    ["ORDER BY " ++ order_by.getD ""]
  else []

/-- The LIMIT line (`if limit:` is Python truthiness, so 0 emits nothing). -/
def limitSection (limit : Option Int) : List String :=
  match limit with
  | some n => if n ≠ 0 then ["LIMIT " ++ toString n] else []
  | Option.none => []

/-- The query_parts list joined into the final SQL text. base_query is
stripped in QueryBuilder.__init__ before being spliced into the CTE. -/
def queryParts (base_query : String) (cols : List ColumnMetadata)
    (x_axis_field x_axis_granularity : Option String) (y_axis_metrics : List Metric)
    (series_field : Option String) (filters : Option Filters)
    (order_by : Option String) (limit : Option Int) : List String :=
  let sel := selectParts cols x_axis_field x_axis_granularity y_axis_metrics series_field
  let w := (buildWhere cols x_axis_field filters).1
  ["WITH __base_data AS (", "  " ++ pyStrip base_query, ")", "SELECT",
   "  " ++ joinSep ",\n  " sel, "FROM __base_data"]
  ++ (if w.isEmpty then [] else ["WHERE", "  " ++ joinSep "\n  AND " w])
  ++ groupBySection x_axis_field series_field
  ++ orderBySection order_by x_axis_field
  ++ limitSection limit

/-- QueryBuilder.build_analytical_query: the validation phase raising
ValueError (modelled as Except.error) followed by the compilation phase
returning the SQL text and the parameter dict. -/
def build_analytical_query (base_query : String) (cols : List ColumnMetadata)
    (x_axis_field x_axis_granularity : Option String) (y_axis_metrics : List Metric)
    (series_field : Option String) (filters : Option Filters)
    (order_by : Option String) (limit : Option Int) :
    Except String (String × List (String × PyVal)) :=
  if truthyStr x_axis_field && !(validate_column cols (x_axis_field.getD "")) then
    .error ("Campo do eixo X '" ++ x_axis_field.getD "" ++ "' não existe no dataset")
  else if truthyStr series_field && !(validate_column cols (series_field.getD "")) then
    .error ("Campo de série '" ++ series_field.getD "" ++ "' não existe no dataset")
  else match validateMetrics cols y_axis_metrics with
  | some e => .error e
  | Option.none =>
    if truthyStr x_axis_granularity && truthyStr x_axis_field
        && !(validate_granularity cols (x_axis_field.getD "") (x_axis_granularity.getD "")) then
      .error ("Granularidade '" ++ x_axis_granularity.getD ""
              ++ "' não permitida para '" ++ x_axis_field.getD "" ++ "'")
    else
      .ok (joinSep "\n" (queryParts base_query cols x_axis_field x_axis_granularity
                          y_axis_metrics series_field filters order_by limit),
           (buildWhere cols x_axis_field filters).2)

/-- Word characters for the regex word boundary `\b` (ASCII fragment of `\w`). -/
def isWordChar (c : Char) : Bool := c.isAlphanum || c = '_'

/-- True when the keyword occurs at the head of l followed by a boundary. -/
def keywordMatchAt (kw l : List Char) : Bool :=
  kw.isPrefixOf l
    && (match l.drop kw.length with
        | [] => true
        | c :: _ => !isWordChar c)

/-- Scan for a word-boundary match of kw, tracking whether the previous
character was a word character. -/
def wordBoundarySearchAux (kw : List Char) (prevIsWord : Bool) : List Char → Bool
  | [] => false
  | c :: rest =>
    ((!prevIsWord) && keywordMatchAt kw (c :: rest))
    || wordBoundarySearchAux kw (isWordChar c) rest

/-- Model of Python re.search of the word-boundary pattern for a keyword. -/
def hasWordBoundaryMatch (keyword s : String) : Bool :=
  wordBoundarySearchAux keyword.data false s.data

/-- The forbidden DDL/DML keywords of validate_safe_query. -/
def forbidden_keywords : List String :=
  ["insert", "update", "delete", "drop", "create", "alter", "truncate",
   "grant", "revoke", "execute", "call"]

/-- QueryBuilder.validate_safe_query: (is_safe, error_message). -/
def validate_safe_query (query : String) : Bool × Option String :=
  let query_lower := pyStrip (pyLower query)
  if query.data.contains ';' then
    (false, some "Query não pode conter ponto-e-vírgula (múltiplos statements)")
  else if !(pyStartsWith query_lower "select" || pyStartsWith query_lower "with") then
    (false, some "Query deve começar com SELECT ou WITH")
  else
    match forbidden_keywords.find? (fun kw => hasWordBoundaryMatch kw query_lower) with
    | some kw => (false, some ("Palavra-chave '" ++ pyUpper kw ++ "' não permitida"))
    | Option.none => (true, Option.none)

/-! ## Embedding of src/dashboards/models.py (DashboardBlock result normalization) -/

/-- Gregorian leap year. -/
def isLeap (y : Nat) : Bool := (y % 4 = 0 && y % 100 ≠ 0) || y % 400 = 0

/-- Days in a month of the Gregorian calendar (0 for an invalid month). -/
def daysInMonth (y m : Nat) : Nat :=
  if m = 1 then 31
  else if m = 2 then (if isLeap y then 29 else 28)
  else if m = 3 then 31
  else if m = 4 then 30
  else if m = 5 then 31
  else if m = 6 then 30
  else if m = 7 then 31
  else if m = 8 then 31
  else if m = 9 then 30
  else if m = 10 then 31
  else if m = 11 then 30
  else if m = 12 then 31
  else 0

/-- Day of the year (1-based). -/
def dayOfYear (y m d : Nat) : Nat :=
  (List.range (m - 1)).foldl (fun a i => a + daysInMonth y (i + 1)) 0 + d

/-- Day of the week by Sakamoto's method, 0 = Sunday. -/
def sakamotoDow (y m d : Nat) : Nat :=
  let t := [0, 3, 2, 5, 0, 3, 5, 1, 4, 6, 2, 4]
  let y2 := if m < 3 then y - 1 else y
  (y2 + y2 / 4 - y2 / 100 + y2 / 400 + t.getD (m - 1) 0 + d) % 7

/-- ISO weekday, Monday = 1 .. Sunday = 7. -/
def isoWeekday (y m d : Nat) : Nat :=
  let s := sakamotoDow y m d
  if s = 0 then 7 else s

/-- Whether the ISO year has 53 weeks. -/
def isoLongYear (y : Nat) : Bool :=
  let p := fun (n : Nat) => (n + n / 4 - n / 100 + n / 400) % 7
  p y = 4 || p (y - 1) = 3

/-- ISO-8601 week number of a date (datetime.isocalendar()[1]). -/
def isoWeekNumber (dt : PyDateTime) : Nat :=
  let w := isoWeekday dt.year dt.month dt.day
  let doy := dayOfYear dt.year dt.month dt.day
  let week := (doy + 10 - w) / 7
  if week = 0 then (if isoLongYear (dt.year - 1) then 53 else 52)
  else if week = 53 && !isoLongYear dt.year then 1
  else week

/-- Take up to maxN leading digits. -/
def spanDigits (maxN : Nat) : List Char → List Char × List Char
  | [] => ([], [])
  | c :: rest =>
    match maxN with
    | 0 => ([], c :: rest)
    | Nat.succ k =>
      if c.isDigit then
        let p := spanDigits k rest
        (c :: p.1, p.2)
      else ([], c :: rest)

/-- Numeric value of a digit string. -/
def digitsToNat (ds : List Char) : Nat :=
  ds.foldl (fun a c => a * 10 + (c.toNat - 48)) 0

/-- Parse 1..maxN digits (strptime numeric directives are greedy but accept
fewer digits than the padded width). -/
def parseNum (maxN : Nat) (cs : List Char) : Option (Nat × List Char) :=
  let p := spanDigits maxN cs
  if p.1.isEmpty then Option.none else some (digitsToNat p.1, p.2)

/-- Parse the %f directive: 1..6 digits, right-padded to microseconds. -/
def parseFrac (cs : List Char) : Option (Nat × List Char) :=
  let p := spanDigits 6 cs
  if p.1.isEmpty then Option.none
  else some (digitsToNat p.1 * 10 ^ (6 - p.1.length), p.2)

/-- Expect one literal character. -/
def expectChar (c : Char) : List Char → Option (List Char)
  | [] => Option.none
  | x :: rest => if x = c then some rest else Option.none

/-- Validation performed by the datetime constructor that strptime calls. -/
def mkPyDateTime (y m d h mi s us : Nat) : Option PyDateTime :=
  if 1 ≤ y && y ≤ 9999 && 1 ≤ m && m ≤ 12 && 1 ≤ d && d ≤ daysInMonth y m
      && h ≤ 23 && mi ≤ 59 && s ≤ 59 && us ≤ 999999 then
    some ⟨y, m, d, h, mi, s, us⟩
  else Option.none

/-- Parse the "%Y-%m-%d" prefix, returning (y, m, d) and the rest. -/
def parseYmd (cs : List Char) : Option (Nat × Nat × Nat × List Char) := do
  let (y, r1) ← parseNum 4 cs
  let r2 ← expectChar '-' r1
  let (m, r3) ← parseNum 2 r2
  let r4 ← expectChar '-' r3
  let (d, r5) ← parseNum 2 r4
  pure (y, m, d, r5)

/-- Parse the " %H:%M:%S" continuation, returning (h, mi, s) and the rest. -/
def parseHms (cs : List Char) : Option (Nat × Nat × Nat × List Char) := do
  let r1 ← expectChar ' ' cs
  let (h, r2) ← parseNum 2 r1
  let r3 ← expectChar ':' r2
  let (mi, r4) ← parseNum 2 r3
  let r5 ← expectChar ':' r4
  let (s, r6) ← parseNum 2 r5
  pure (h, mi, s, r6)

/-- datetime.strptime(value, "%Y-%m-%d %H:%M:%S"): full match required. -/
def strptimeYmdHms (s : String) : Option PyDateTime := do
  let (y, m, d, r1) ← parseYmd s.data
  let (h, mi, sec, r2) ← parseHms r1
  match r2 with
  | [] => mkPyDateTime y m d h mi sec 0
  | _ => Option.none

/-- datetime.strptime(value, "%Y-%m-%d"): full match required. -/
def strptimeYmd (s : String) : Option PyDateTime := do
  let (y, m, d, r1) ← parseYmd s.data
  match r1 with
  | [] => mkPyDateTime y m d 0 0 0 0
  | _ => Option.none

/-- datetime.strptime(value, "%Y-%m-%d %H:%M:%S.%f"): full match required. -/
def strptimeYmdHmsF (s : String) : Option PyDateTime := do
  let (y, m, d, r1) ← parseYmd s.data
  let (h, mi, sec, r2) ← parseHms r1
  let r3 ← expectChar '.' r2
  let (us, r4) ← parseFrac r3
  match r4 with
  | [] => mkPyDateTime y m d h mi sec us
  | _ => Option.none

/-- The string-parsing loop of format_x_axis_value: the three formats are
tried in the source's order and the first success wins. -/
def tryParseDatetime (s : String) : Option PyDateTime :=
  match strptimeYmdHms s with
  | some dt => some dt
  | Option.none =>
    match strptimeYmd s with
    | some dt => some dt
    | Option.none => strptimeYmdHmsF s

/-- The granularity dispatch at the end of format_x_axis_value. -/
def formatByGranularity (granularity : String) (dt : PyDateTime) (value : PyVal) : String :=
  if granularity = "hour" then
    padNum 2 dt.day ++ "/" ++ padNum 2 dt.month ++ "/" ++ padNum 4 dt.year
      ++ " " ++ padNum 2 dt.hour ++ ":00"
  else if granularity = "day" then
    padNum 2 dt.day ++ "/" ++ padNum 2 dt.month ++ "/" ++ padNum 4 dt.year
  else if granularity = "week" then
    "Semana " ++ toString (isoWeekNumber dt) ++ ", " ++ toString dt.year
  else if granularity = "month" then
    padNum 2 dt.month ++ "/" ++ padNum 4 dt.year
  else if granularity = "quarter" then
    "Q" ++ toString ((dt.month - 1) / 3 + 1) ++ "/" ++ toString dt.year
  else if granularity = "year" then
    toString dt.year
  else value.pyStr

/-- DashboardBlock.format_x_axis_value. -/
def format_x_axis_value (x_axis_granularity : Option String) (value : PyVal) : String :=
  if !truthyStr x_axis_granularity || !value.truthy then value.pyStr
  else
    let dtOpt : Option PyDateTime :=
      match value with
      | PyVal.str s => tryParseDatetime s
      | PyVal.dt d => some d
      | _ => Option.none
    match dtOpt with
    | Option.none => value.pyStr
    | some dt => formatByGranularity (pyLower (x_axis_granularity.getD "")) dt value

/-- Comparison of two datetimes (lexicographic on the components). -/
def PyDateTime.comp (a b : PyDateTime) : Ordering :=
  (compare a.year b.year).then ((compare a.month b.month).then
    ((compare a.day b.day).then ((compare a.hour b.hour).then
      ((compare a.minute b.minute).then ((compare a.second b.second).then
        (compare a.usec b.usec))))))

/-- Python rich comparison of scalars: cross-type comparisons raise TypeError,
modelled as Option.none. -/
def PyScalar.comp : PyScalar → PyScalar → Option Ordering
  | .str a, .str b => some (compare a b)
  | .int a, .int b => some (compare a b)
  | .dt a, .dt b => some (a.comp b)
  | _, _ => Option.none

/-- Python list comparison: equal prefixes are skipped (== never raises), the
first differing pair is compared (which may raise), else lengths decide. -/
def pyListComp : List PyScalar → List PyScalar → Option Ordering
  | [], [] => some .eq
  | [], _ :: _ => some .lt
  | _ :: _, [] => some .gt
  | x :: xs, y :: ys =>
    if x = y then pyListComp xs ys
    else x.comp y

/-- Python rich comparison of values. -/
def pyComp : PyVal → PyVal → Option Ordering
  | .str a, .str b => some (compare a b)
  | .int a, .int b => some (compare a b)
  | .dt a, .dt b => some (a.comp b)
  | .list a, .list b => pyListComp a b
  | _, _ => Option.none

/-- Lists are the only unhashable values in the model (set() rejects them). -/
def PyVal.isUnhashable : PyVal → Bool
  | .list _ => true
  | _ => false

/-- Every pair of elements can be compared without a TypeError. -/
def pairwiseComparable (l : List PyVal) : Bool :=
  l.all (fun a => l.all (fun b => (pyComp a b).isSome))

/-- Ascending insertion into a sorted list. -/
def pySortInsert (x : PyVal) : List PyVal → List PyVal
  | [] => [x]
  | y :: ys => if pyComp x y = some .gt then y :: pySortInsert x ys else x :: y :: ys

/-- Ascending sort (the elements are pairwise comparable when this is used). -/
def pySortAsc (l : List PyVal) : List PyVal := l.foldr pySortInsert []

/-- Python sorted(list(set(l))): set() requires hashable elements, sorting a
set with elements of incomparable types raises TypeError, otherwise the
distinct values are returned in ascending order. -/
def pySetSorted (l : List PyVal) : Except String (List PyVal) :=
  if l.any PyVal.isUnhashable then
    .error "TypeError: unhashable type: 'list'"
  else if pairwiseComparable l.dedup then
    .ok (pySortAsc l.dedup)
  else
    .error "TypeError: '<' not supported between mixed types"

/-- A result row: an ordered mapping of column alias to value. -/
abbrev Row := List (String × PyVal)

/-- Python row.get(k): None when the key is absent. -/
def rowGet (r : Row) (k : String) : Option PyVal :=
  (r.find? (fun p => p.1 == k)).map (fun p => p.2)

/-- Python row.get(k, dflt). -/
def rowGetD (r : Row) (k : String) (dflt : PyVal) : PyVal :=
  (rowGet r k).getD dflt

/-- Insertion-ordered dict write: update in place, or append a new key. -/
def dictSet {κ β : Type} [BEq κ] (m : List (κ × β)) (k : κ) (v : β) : List (κ × β) :=
  if m.any (fun p => p.1 == k) then
    m.map (fun p => if p.1 == k then (k, v) else p)
  else m ++ [(k, v)]

/-- Dict lookup. -/
def dictGet? {κ β : Type} [BEq κ] (m : List (κ × β)) (k : κ) : Option β :=
  (m.find? (fun p => p.1 == k)).map (fun p => p.2)

/-- Dict lookup with default. -/
def dictGetD {κ β : Type} [BEq κ] (m : List (κ × β)) (k : κ) (dflt : β) : β :=
  (dictGet? m k).getD dflt

/-- One y_axis_aggregations entry of a DashboardBlock; normalization reads the
"label", "field" and "axis" keys via dict.get. -/
structure AggCfg where
  field : Option String
  label : Option String
  axis : Option String
  deriving Repr, DecidableEq

/-- agg_config.get("label", agg_config.get("field")). -/
def aggLabel (a : AggCfg) : Option String :=
  match a.label with
  | some s => some s
  | Option.none => a.field

/-- agg_config.get("axis", "y1"). -/
def aggAxis (a : AggCfg) : String := a.axis.getD "y1"

/-- The label of an output series: the bare series key when there is exactly
one metric, a combined key when several metrics share a series field, and the
metric's own label when there is no series field (it may be None). -/
def serieLabel (has_series : Bool) (nAggs : Nat) (series_key : String)
    (label : Option String) : Option String :=
  if has_series then
    if nAggs = 1 then some series_key
    else some (series_key ++ " - " ++ optPyText label)
  else label

/-- The per-series accumulation record built while scanning rows. -/
structure SerieInfo where
  axis : String
  label : Option String
  values_dict : List (String × PyVal)
  deriving Repr, DecidableEq

/-- Processing of one metric of one row: initialize the series record on first
sight (keeping its original axis afterwards) and record the value for this x. -/
def processAgg (nAggs : Nat) (has_series : Bool) (series_key x_val : String) (row : Row)
    (inner : List (Option String × SerieInfo)) (idxAgg : Nat × AggCfg) :
    List (Option String × SerieInfo) :=
  let label := aggLabel idxAgg.2
  let axis := aggAxis idxAgg.2
  let al := "metric_value_" ++ toString (idxAgg.1 + 1)
  let sl := serieLabel has_series nAggs series_key label
  let info := match dictGet? inner sl with
    | some i => i
    | Option.none => ⟨axis, sl, []⟩
  let value := (rowGet row al).getD PyVal.none
  dictSet inner sl { info with values_dict := dictSet info.values_dict x_val value }

/-- Processing of one row of the normalization loop. -/
def processRow (aggs : List AggCfg) (has_series : Bool)
    (x_value_map : List (String × String))
    (sd : List (String × List (Option String × SerieInfo))) (row : Row) :
    List (String × List (Option String × SerieInfo)) :=
  let x_val_raw := (rowGetD row "metric_date" (PyVal.str "")).pyStr
  let x_val := dictGetD x_value_map x_val_raw x_val_raw
  let series_key := if has_series then (rowGetD row "series_key" (PyVal.str "")).pyStr
                    else "default"
  let inner := dictGetD sd series_key []
  dictSet sd series_key
    (aggs.enum.foldl (processAgg aggs.length has_series series_key x_val row) inner)

/-- Ascending insertion into a sorted list of strings. -/
def strInsert (x : String) : List String → List String
  | [] => [x]
  | y :: ys => if compare x y = .gt then y :: strInsert x ys else x :: y :: ys

/-- Ascending sort of strings (sorted(series_data.keys())). -/
def sortStrAsc (l : List String) : List String := l.foldr strInsert []

/-- One output series. -/
structure SeriesOut where
  axis : String
  label : Option String
  values : List PyVal
  deriving Repr, DecidableEq

/-- The normalized chart-ready payload. -/
structure NormalizedResult where
  x : List String
  series : List SeriesOut
  deriving Repr, DecidableEq

/-- DashboardBlock.normalize_query_results. The only failing operations are
set() and sorted() on the distinct metric_date values; everything after is
pure dict building. -/
def normalize_query_results (x_axis_granularity : Option String)
    (y_axis_aggregations : List AggCfg) (query_results : List Row) :
    Except String NormalizedResult :=
  match query_results with
  | [] => .ok ⟨[], []⟩
  | r0 :: _ =>
    match pySetSorted (query_results.map (fun r => rowGetD r "metric_date" (PyVal.str ""))) with
    | .error e => .error e
    | .ok raw_x_values =>
      let x_values := raw_x_values.map (format_x_axis_value x_axis_granularity)
      let x_value_map :=
        (raw_x_values.zip x_values).foldl
          (fun m p => dictSet m p.1.pyStr p.2) ([] : List (String × String))
      let has_series := r0.any (fun p => p.1 == "series_key")
      let series_data :=
        query_results.foldl (processRow y_axis_aggregations has_series x_value_map) []
      let entries := (sortStrAsc (series_data.map (fun p => p.1))).flatMap
        (fun sk => dictGetD series_data sk [])
      let series_list := entries.map (fun p =>
        ({ axis := p.2.axis, label := p.2.label,
           values := x_values.map (fun xv => dictGetD p.2.values_dict xv PyVal.none) } : SeriesOut))
      .ok ⟨x_values, series_list⟩

/-! ## General helper lemmas -/

instance exceptDecEq {ε α : Type} [DecidableEq ε] [DecidableEq α] :
    DecidableEq (Except ε α) := fun a b =>
  match a, b with
  | .error e, .error f =>
    if h : e = f then isTrue (by rw [h])
    else isFalse (fun hh => h (Except.error.inj hh))
  | .ok x, .ok y =>
    if h : x = y then isTrue (by rw [h])
    else isFalse (fun hh => h (Except.ok.inj hh))
  | .error _, .ok _ => isFalse (fun hh => Except.noConfusion hh)
  | .ok _, .error _ => isFalse (fun hh => Except.noConfusion hh)

theorem string_data_append (s t : String) : (s ++ t).data = s.data ++ t.data := rfl

/-- A member of a joined list occurs inside the joined string. -/
theorem joinSep_contains_mem {a sep : String} :
    ∀ {l : List String}, a ∈ l → a.data <:+: (joinSep sep l).data := by
  intro l
  induction l with
  | nil => intro h; cases h
  | cons x rest ih =>
    intro h
    cases rest with
    | nil =>
      rcases List.mem_singleton.mp h with rfl
      exact List.infix_refl _
    | cons y t =>
      rcases List.mem_cons.mp h with rfl | hmem
      · show a.data <:+: (a ++ sep ++ joinSep sep (y :: t)).data
        rw [string_data_append, string_data_append]
        exact ((List.prefix_append a.data _).trans (List.prefix_append _ _)).isInfix
      · show a.data <:+: (x ++ sep ++ joinSep sep (y :: t)).data
        rw [string_data_append]
        exact (ih hmem).trans (List.suffix_append _ _).isInfix

/-- The middle factor of a three-part concatenation is a substring. -/
theorem containsSub_middle (pre mid post : String) : ContainsSub (pre ++ mid ++ post) mid := by
  show mid.data <:+: (pre ++ mid ++ post).data
  rw [string_data_append, string_data_append]
  exact List.infix_append _ _ _

/-- The right factor of a concatenation is a substring. -/
theorem containsSub_right (pre mid : String) : ContainsSub (pre ++ mid) mid := by
  show mid.data <:+: (pre ++ mid).data
  rw [string_data_append]
  exact (List.suffix_append _ _).isInfix

/-- Substring is transitive along string membership in a part list. -/
theorem containsSub_trans {a b c : String} (h1 : ContainsSub a b) (h2 : ContainsSub b c) :
    ContainsSub a c := h2.trans h1

@[simp] theorem truthyStr_none : truthyStr Option.none = false := rfl

/-! ## Claim C3 -/

/-- C3: validate_safe_query rejects every string containing a semicolon, and
accepts both "SELECT * FROM t" and "SELECT updated_at FROM t" (the forbidden
keyword scan is word-boundary based, so updated_at is not flagged). -/
theorem c3_validate_safe_query :
    (∀ q : String, ';' ∈ q.data → (validate_safe_query q).1 = false)
    ∧ validate_safe_query "SELECT * FROM t" = (true, Option.none)
    ∧ validate_safe_query "SELECT updated_at FROM t" = (true, Option.none) := by
  refine ⟨?_, by decide, by decide⟩
  intro q h
  simp [validate_safe_query, h]

/-- Witness instantiating the universally quantified part of c3 at the
concrete multi-statement input of the spec's scenario 5. -/
theorem c3_witness :
    ';' ∈ "SELECT * FROM orders; DROP TABLE orders".data
    ∧ (validate_safe_query "SELECT * FROM orders; DROP TABLE orders").1 = false := by
  refine ⟨by decide, ?_⟩
  exact (c3_validate_safe_query.1 "SELECT * FROM orders; DROP TABLE orders") (by decide)

/-! ## Claim C4 -/

/-- C4 (counterexample): the claim says every database type string that is
not one of the listed names resolves to dimension, but inference uses
substring matching: "point" is not a listed name yet contains "int" and is
classified as a measure. -/
theorem c4_counterexample :
    "point" ∉ datetime_types ∧ "point" ∉ numeric_types
    ∧ infer_semantic_type "point" ≠ SemanticTypeNames.DIMENSION
    ∧ infer_semantic_type "point" = SemanticTypeNames.MEASURE := by
  refine ⟨by decide, by decide, by decide, by decide⟩

/-- C4 (amended): infer_semantic_type is total and deterministic, and every
database type string that does not contain any listed datetime or numeric
type name as a case-insensitive substring resolves to dimension, whose
allowed granularity set is empty. -/
theorem c4_infer_dimension_default (s : String)
    (h1 : ∀ t ∈ datetime_types, ¬ ContainsSub (pyLower s) t)
    (h2 : ∀ t ∈ numeric_types, ¬ ContainsSub (pyLower s) t) :
    infer_semantic_type s = SemanticTypeNames.DIMENSION
    ∧ get_allowed_granularities (infer_semantic_type s) = [] := by
  have ha : (datetime_types.any fun dt => containsSubB (pyLower s) dt) = false := by
    simp only [List.any_eq_false]
    intro t ht
    simpa [containsSubB, ContainsSub] using h1 t ht
  have hb : (numeric_types.any fun nt => containsSubB (pyLower s) nt) = false := by
    simp only [List.any_eq_false]
    intro t ht
    simpa [containsSubB, ContainsSub] using h2 t ht
  have hd : infer_semantic_type s = SemanticTypeNames.DIMENSION := by
    simp [infer_semantic_type, ha, hb]
  refine ⟨hd, ?_⟩
  rw [hd]
  decide

/-- Witness for c4_infer_dimension_default at the concrete type "varchar". -/
theorem c4_witness :
    infer_semantic_type "varchar" = SemanticTypeNames.DIMENSION
    ∧ get_allowed_granularities (infer_semantic_type "varchar") = [] :=
  c4_infer_dimension_default "varchar" (by decide) (by decide)

/-! ## Claim C5 -/

/-- C5: whenever normalize_query_results returns a result, every emitted
series has a values array exactly as long as the x array: the values are
built by a dense map over x, never by truncation or padding. -/
theorem c5_dense_alignment (g : Option String) (aggs : List AggCfg) (rows : List Row)
    (r : NormalizedResult) (h : normalize_query_results g aggs rows = .ok r) :
    ∀ s ∈ r.series, s.values.length = r.x.length := by
  cases rows with
  | nil =>
    simp only [normalize_query_results, Except.ok.injEq] at h
    subst h
    intro s hs
    simp at hs
  | cons r0 rest =>
    rw [normalize_query_results] at h
    cases hsort : pySetSorted ((r0 :: rest).map fun rr => rowGetD rr "metric_date" (PyVal.str "")) with
    | error e => rw [hsort] at h; cases h
    | ok raw =>
      rw [hsort] at h
      simp only [Except.ok.injEq] at h
      subst h
      intro s hs
      simp only [List.mem_map] at hs
      obtain ⟨e, he, rfl⟩ := hs
      simp

/-- Witness for c5_dense_alignment at the docstring example of the source. -/
theorem c5_witness :
    normalize_query_results Option.none [⟨some "v", some "Total Valor", Option.none⟩]
        [[("metric_date", PyVal.str "2024-01"), ("series_key", PyVal.str "A"),
          ("metric_value_1", PyVal.int 100)],
         [("metric_date", PyVal.str "2024-01"), ("series_key", PyVal.str "B"),
          ("metric_value_1", PyVal.int 150)],
         [("metric_date", PyVal.str "2024-02"), ("series_key", PyVal.str "A"),
          ("metric_value_1", PyVal.int 120)]]
      = .ok ⟨["2024-01", "2024-02"],
             [⟨"y1", some "A", [PyVal.int 100, PyVal.int 120]⟩,
              ⟨"y1", some "B", [PyVal.int 150, PyVal.none]⟩]⟩
    ∧ ∀ s ∈ [⟨"y1", some "A", [PyVal.int 100, PyVal.int 120]⟩,
             (⟨"y1", some "B", [PyVal.int 150, PyVal.none]⟩ : SeriesOut)],
        s.values.length = (["2024-01", "2024-02"] : List String).length := by
  refine ⟨by decide, ?_⟩
  have := c5_dense_alignment Option.none [⟨some "v", some "Total Valor", Option.none⟩]
    [[("metric_date", PyVal.str "2024-01"), ("series_key", PyVal.str "A"),
      ("metric_value_1", PyVal.int 100)],
     [("metric_date", PyVal.str "2024-01"), ("series_key", PyVal.str "B"),
      ("metric_value_1", PyVal.int 150)],
     [("metric_date", PyVal.str "2024-02"), ("series_key", PyVal.str "A"),
      ("metric_value_1", PyVal.int 120)]]
    ⟨["2024-01", "2024-02"],
     [⟨"y1", some "A", [PyVal.int 100, PyVal.int 120]⟩,
      ⟨"y1", some "B", [PyVal.int 150, PyVal.none]⟩]⟩ (by decide)
  exact this

/-! ## Claim C6 -/

/-- C6 (counterexample): normalization is not total on rows with mixed or
null metric_date values: sorting the distinct axis values raises TypeError
when a null and a string are both present. -/
theorem c6_counterexample :
    normalize_query_results Option.none [⟨some "v", Option.none, Option.none⟩]
        [[("metric_date", PyVal.none)], [("metric_date", PyVal.str "a")]]
      = .error "TypeError: '<' not supported between mixed types" := by decide

/-- C6 (amended): normalize_query_results returns a normalized result for
every list of rows whose metric_date values are hashable and pairwise
comparable (for example all strings or all timestamps), and for an empty
rows list it returns exactly the empty structure regardless of the intent. -/
theorem c6_normalize_total_on_comparable (g : Option String) (aggs : List AggCfg)
    (rows : List Row)
    (h1 : (rows.map fun rr => rowGetD rr "metric_date" (PyVal.str "")).any PyVal.isUnhashable
          = false)
    (h2 : pairwiseComparable (rows.map fun rr => rowGetD rr "metric_date" (PyVal.str "")).dedup
          = true) :
    (∃ r, normalize_query_results g aggs rows = .ok r)
    ∧ normalize_query_results g aggs [] = .ok ⟨[], []⟩ := by
  refine ⟨?_, rfl⟩
  cases rows with
  | nil => exact ⟨⟨[], []⟩, rfl⟩
  | cons r0 rest =>
    rw [normalize_query_results]
    have hs : pySetSorted ((r0 :: rest).map fun rr => rowGetD rr "metric_date" (PyVal.str ""))
        = .ok (pySortAsc ((r0 :: rest).map fun rr =>
            rowGetD rr "metric_date" (PyVal.str "")).dedup) := by
      unfold pySetSorted
      rw [h1, h2]
      simp
    rw [hs]
    exact ⟨_, rfl⟩

/-- Witness for c6_normalize_total_on_comparable at concrete all-string rows. -/
theorem c6_witness :
    (∃ r, normalize_query_results Option.none [⟨some "v", Option.none, Option.none⟩]
        [[("metric_date", PyVal.str "b")], [("metric_date", PyVal.str "a")]] = .ok r)
    ∧ normalize_query_results Option.none [⟨some "v", Option.none, Option.none⟩] []
      = .ok ⟨[], []⟩ :=
  c6_normalize_total_on_comparable Option.none [⟨some "v", Option.none, Option.none⟩]
    [[("metric_date", PyVal.str "b")], [("metric_date", PyVal.str "a")]]
    (by decide) (by decide)

/-- The spec's example dataset (sold_at timestamp, amount numeric,
region varchar), with operations derived by the inference rules; used by the
concrete witnesses and counterexamples below. -/
def colsEx : List ColumnMetadata :=
  [⟨"sold_at", "timestamp", "datetime", true, ["count", "min", "max"],
    ["hour", "day", "week", "month", "quarter", "year"]⟩,
   ⟨"amount", "numeric", "measure", true,
    ["sum", "avg", "count", "count_distinct", "min", "max", "median"], []⟩,
   ⟨"region", "varchar", "dimension", true, ["count", "count_distinct"], []⟩]

/-! ## Claim C7 -/

/-- C7: with no axis field and no series field and at least one metric, the
compiled SQL selects the literal aliased as metric_date and has empty
GROUP BY and ORDER BY sections; in general the GROUP BY part list is empty
iff both axis and series are absent, and lists metric_date iff an axis is
present and series_key iff a series is present. -/
theorem c7_metric_kpi_shape (bq : String) (cols : List ColumnMetadata)
    (g : Option String) (ms : List Metric) (f : Option Filters)
    (ob : Option String) (lim : Option Int) (sql : String)
    (ps : List (String × PyVal)) (x s : Option String)
    (_hms : ms ≠ [])
    (h : build_analytical_query bq cols Option.none g ms Option.none f ob lim
         = .ok (sql, ps)) :
    ContainsSub sql "'Total' AS metric_date"
    ∧ sql = joinSep "\n" (queryParts bq cols Option.none g ms Option.none f ob lim)
    ∧ groupBySection Option.none Option.none = []
    ∧ orderBySection ob Option.none = []
    ∧ (groupByParts x s = [] ↔ (truthyStr x = false ∧ truthyStr s = false))
    ∧ ("metric_date" ∈ groupByParts x s ↔ truthyStr x = true)
    ∧ ("series_key" ∈ groupByParts x s ↔ truthyStr s = true) := by
  have hsql : sql = joinSep "\n" (queryParts bq cols Option.none g ms Option.none f ob lim) := by
    cases hv : validateMetrics cols ms with
    | some e => simp [build_analytical_query, hv] at h
    | none =>
      simp only [build_analytical_query, hv, truthyStr_none, Bool.false_and, Bool.and_false,
        Bool.not_false, if_false] at h
      simp only [Bool.false_eq_true, if_false, Except.ok.injEq, Prod.mk.injEq] at h
      exact h.1.symm
  refine ⟨?_, hsql, rfl, by simp [orderBySection, Bool.and_false], ?_, ?_, ?_⟩
  · rw [hsql]
    have hmem : ("  " ++ joinSep ",\n  " (selectParts cols Option.none g ms Option.none))
        ∈ queryParts bq cols Option.none g ms Option.none f ob lim := by
      rw [queryParts]
      simp
    have h1 : ContainsSub (joinSep ",\n  " (selectParts cols Option.none g ms Option.none))
        "'Total' AS metric_date" := by
      apply joinSep_contains_mem
      rw [selectParts]
      exact List.mem_append_left _ (List.mem_append_left _ (List.mem_singleton.mpr rfl))
    exact containsSub_trans (joinSep_contains_mem hmem)
      (containsSub_trans (containsSub_right "  " _) h1)
  · cases hx : truthyStr x <;> cases hy : truthyStr s <;> simp [groupByParts, hx, hy]
  · cases hx : truthyStr x <;> cases hy : truthyStr s <;> simp [groupByParts, hx, hy]
  · cases hx : truthyStr x <;> cases hy : truthyStr s <;> simp [groupByParts, hx, hy]

/-- Witness for c7_metric_kpi_shape at the spec's scenario-3 intent. -/
theorem c7_witness :
    ContainsSub "WITH __base_data AS (\n  SELECT * FROM sales\n)\nSELECT\n  'Total' AS metric_date,\n  AVG(amount) AS metric_value_1\nFROM __base_data"
      "'Total' AS metric_date"
    ∧ "WITH __base_data AS (\n  SELECT * FROM sales\n)\nSELECT\n  'Total' AS metric_date,\n  AVG(amount) AS metric_value_1\nFROM __base_data"
      = joinSep "\n" (queryParts "SELECT * FROM sales" colsEx Option.none Option.none
          [⟨some "amount", some "avg"⟩] Option.none Option.none (some "metric_date") Option.none)
    ∧ groupBySection Option.none Option.none = []
    ∧ orderBySection (some "metric_date") Option.none = []
    ∧ (groupByParts (some "sold_at") (some "region") = []
        ↔ (truthyStr (some "sold_at") = false ∧ truthyStr (some "region") = false))
    ∧ ("metric_date" ∈ groupByParts (some "sold_at") (some "region")
        ↔ truthyStr (some "sold_at") = true)
    ∧ ("series_key" ∈ groupByParts (some "sold_at") (some "region")
        ↔ truthyStr (some "region") = true) :=
  c7_metric_kpi_shape "SELECT * FROM sales" colsEx Option.none
    [⟨some "amount", some "avg"⟩] Option.none (some "metric_date") Option.none
    "WITH __base_data AS (\n  SELECT * FROM sales\n)\nSELECT\n  'Total' AS metric_date,\n  AVG(amount) AS metric_value_1\nFROM __base_data"
    [] (some "sold_at") (some "region") (by decide) (by decide)

/-! ## Claim C8 -/

/-- C8 (counterexample): a granularity supplied without an axis field does not
make compilation fail; the granularity is silently ignored and the compile
succeeds, contradicting the claim that it is an error. -/
theorem c8_counterexample :
    truthyStr (some "month") = true
    ∧ truthyStr (Option.none : Option String) = false
    ∧ build_analytical_query "SELECT 1" colsEx Option.none (some "month")
        [⟨some "amount", some "sum"⟩] Option.none Option.none (some "metric_date") Option.none
      = .ok ("WITH __base_data AS (\n  SELECT 1\n)\nSELECT\n  'Total' AS metric_date,\n  SUM(amount) AS metric_value_1\nFROM __base_data", []) :=
  ⟨by decide, by decide, by decide⟩

/-- C8 (amended): when the axis field is not set (or empty) the granularity is
ignored entirely, giving the same compilation as no granularity at all; when
both granularity and axis are set, a successful compile implies the
granularity is among the axis column's allowed_granularities, and when axis,
series and metrics validate but the granularity is not allowed, compilation
fails with the ValidationError naming the granularity and the field. The
column's semantic type is not checked separately: it only selects whether
DATE_TRUNC is emitted. -/
theorem c8_granularity_validation (bq : String) (cols : List ColumnMetadata)
    (x g : Option String) (ms : List Metric) (s : Option String) (f : Option Filters)
    (ob : Option String) (lim : Option Int) (r : String × List (String × PyVal)) :
    (truthyStr x = false →
      build_analytical_query bq cols x g ms s f ob lim
        = build_analytical_query bq cols x Option.none ms s f ob lim)
    ∧ (truthyStr g = true → truthyStr x = true →
        build_analytical_query bq cols x g ms s f ob lim = .ok r →
        validate_granularity cols (x.getD "") (g.getD "") = true)
    ∧ (truthyStr g = true → truthyStr x = true →
        validate_column cols (x.getD "") = true →
        (truthyStr s && !(validate_column cols (s.getD ""))) = false →
        validateMetrics cols ms = Option.none →
        validate_granularity cols (x.getD "") (g.getD "") = false →
        build_analytical_query bq cols x g ms s f ob lim
          = .error ("Granularidade '" ++ g.getD "" ++ "' não permitida para '"
                    ++ x.getD "" ++ "'")) := by
  refine ⟨?_, ?_, ?_⟩
  · intro hx
    have hax : axisSelectPart cols x g = axisSelectPart cols x Option.none := by
      simp [axisSelectPart, hx]
    simp only [build_analytical_query, queryParts, selectParts, hax, hx,
      Bool.false_and, Bool.and_false, Bool.false_eq_true, if_false]
  · intro hg hx hok
    rw [build_analytical_query] at hok
    split at hok
    · exact Except.noConfusion hok
    · split at hok
      · exact Except.noConfusion hok
      · split at hok
        · exact Except.noConfusion hok
        · split at hok
          · exact Except.noConfusion hok
          · rename_i hcond
            by_contra hv
            rw [Bool.not_eq_true] at hv
            exact hcond (by rw [hg, hx, hv]; rfl)
  · intro hg hx hxv hs hv hvg
    simp only [build_analytical_query, hg, hx, hxv, hs, hv, hvg, Bool.not_true,
      Bool.and_false, Bool.false_and, Bool.not_false, Bool.and_true, Bool.true_and,
      Bool.false_eq_true, if_false, if_true]

/-- Witness for c8_granularity_validation: an unknown granularity on a valid
datetime axis is rejected with the exact error message. -/
theorem c8_witness :
    build_analytical_query "SELECT 1" colsEx (some "sold_at") (some "decade")
        [] Option.none Option.none (some "metric_date") Option.none
      = .error "Granularidade 'decade' não permitida para 'sold_at'" :=
  (c8_granularity_validation "SELECT 1" colsEx (some "sold_at") (some "decade")
    [] Option.none Option.none (some "metric_date") Option.none ("", [])).2.2
    (by decide) (by decide) (by decide) (by decide) (by decide) (by decide)

/-! ## Claim C10 -/

/-- Pointwise append of (where-clauses, params) section outputs. -/
def pairApp (p q : List String × List (String × PyVal)) :
    List String × List (String × PyVal) :=
  (p.1 ++ q.1, p.2 ++ q.2)

theorem dynConditions_append (fld : String) (a b : List (String × PyVal)) :
    dynConditions fld (a ++ b) = pairApp (dynConditions fld a) (dynConditions fld b) := by
  induction a with
  | nil => simp [dynConditions, pairApp]
  | cons c rest ih =>
    obtain ⟨op, v⟩ := c
    simp [dynConditions, ih, pairApp, List.append_assoc]

/-- A value that is not a non-empty Python list. -/
def isNonEmptyList : PyVal → Bool
  | .list l => !l.isEmpty
  | _ => false

theorem dynCondition_in_drop (fld : String) (v : PyVal)
    (hv : isNonEmptyList v = false) : dynCondition fld "in" v = ([], []) := by
  cases v with
  | list l =>
    have hl : l = [] := by
      simpa [isNonEmptyList, List.isEmpty_iff] using hv
    subst hl
    simp [dynCondition]
  | none => simp [dynCondition]
  | str s => simp [dynCondition]
  | int n => simp [dynCondition]
  | dt d => simp [dynCondition]

/-- C10: a dynamic filter condition with operator in whose value is not a
non-empty list is silently dropped: it contributes no WHERE clause and no
parameter, and the whole compilation is exactly the compilation without that
condition (so the result set is unfiltered by it, with no error). -/
theorem c10_in_filter_dropped (bq : String) (cols : List ColumnMetadata)
    (x g : Option String) (ms : List Metric) (s : Option String)
    (ob : Option String) (lim : Option Int) (F : Filters) (fld : String)
    (pre post : List (String × List (String × PyVal))) (cpre cpost : List (String × PyVal))
    (v : PyVal) (hv : isNonEmptyList v = false) :
    dynCondition fld "in" v = ([], [])
    ∧ build_analytical_query bq cols x g ms s
        (some { F with dynamic_filters := pre ++ (fld, cpre ++ ("in", v) :: cpost) :: post })
        ob lim
      = build_analytical_query bq cols x g ms s
        (some { F with dynamic_filters := pre ++ (fld, cpre ++ cpost) :: post }) ob lim := by
  have hdc := dynCondition_in_drop fld v hv
  refine ⟨hdc, ?_⟩
  have hconds : dynConditions fld (cpre ++ ("in", v) :: cpost)
      = dynConditions fld (cpre ++ cpost) := by
    have h1 : ("in", v) :: cpost = [("in", v)] ++ cpost := rfl
    rw [h1, dynConditions_append, dynConditions_append, dynConditions_append]
    simp [dynConditions, hdc, pairApp]
  have hdynsec : dynamicSection cols (pre ++ (fld, cpre ++ ("in", v) :: cpost) :: post)
      = dynamicSection cols (pre ++ (fld, cpre ++ cpost) :: post) := by
    induction pre with
    | nil => simp [dynamicSection, hconds]
    | cons e rest ih =>
      obtain ⟨f2, c2⟩ := e
      simp [dynamicSection, ih]
  have hW : buildWhere cols x
        (some { F with dynamic_filters := pre ++ (fld, cpre ++ ("in", v) :: cpost) :: post })
      = buildWhere cols x
        (some { F with dynamic_filters := pre ++ (fld, cpre ++ cpost) :: post }) := by
    simp only [buildWhere, hdynsec, dateFilterSection, customFilterSection,
      blockFilterSection]
  simp only [build_analytical_query, queryParts, hW]

/-- Witness for c10_in_filter_dropped with the empty-list value. -/
theorem c10_witness :
    dynCondition "amount" "in" (PyVal.list []) = ([], [])
    ∧ build_analytical_query "SELECT * FROM sales" colsEx Option.none Option.none []
        Option.none
        (some ⟨Option.none, Option.none, [], [("amount", [("in", PyVal.list [])])],
               Option.none, Option.none, Option.none⟩)
        (some "metric_date") Option.none
      = build_analytical_query "SELECT * FROM sales" colsEx Option.none Option.none []
        Option.none
        (some ⟨Option.none, Option.none, [], [("amount", [])],
               Option.none, Option.none, Option.none⟩)
        (some "metric_date") Option.none :=
  c10_in_filter_dropped "SELECT * FROM sales" colsEx Option.none Option.none []
    Option.none (some "metric_date") Option.none
    ⟨Option.none, Option.none, [], [], Option.none, Option.none, Option.none⟩
    "amount" [] [] [] [] (PyVal.list []) (by decide)

/-! ## Claim C1 -/

/-- Whether a metric's field names an existing column (the first check of the
metric-validation loop). -/
def metricFieldKnown (cols : List ColumnMetadata) (m : Metric) : Bool :=
  match m.field with
  | some fl => validate_column cols fl
  | Option.none => false

theorem validateMetrics_isSome_of_bad (cols : List ColumnMetadata) (ms : List Metric)
    (m : Metric) (hmem : m ∈ ms) (hbad : metricFieldKnown cols m = false) :
    (validateMetrics cols ms).isSome = true := by
  induction ms with
  | nil => cases hmem
  | cons m0 rest ih =>
    rcases List.mem_cons.mp hmem with rfl | h2
    · cases hf : m.field with
      | none => simp [validateMetrics, hf]
      | some fl =>
        have hvc : validate_column cols fl = false := by
          simpa [metricFieldKnown, hf] using hbad
        simp [validateMetrics, hf, hvc]
    · simp only [validateMetrics]
      split
      · simp
      · split
        · simp
        · exact ih h2

/-- C1 (counterexample): a dynamic filter referencing the unknown field zzz
does not fail compilation: the condition is silently skipped and
build_analytical_query succeeds with no WHERE clause and no parameters. -/
theorem c1_counterexample :
    validate_column colsEx "zzz" = false
    ∧ build_analytical_query "SELECT * FROM sales" colsEx Option.none Option.none []
        Option.none
        (some ⟨Option.none, Option.none, [], [("zzz", [("eq", PyVal.int 1)])],
               Option.none, Option.none, Option.none⟩)
        (some "metric_date") Option.none
      = .ok ("WITH __base_data AS (\n  SELECT * FROM sales\n)\nSELECT\n  'Total' AS metric_date\nFROM __base_data", []) :=
  ⟨by decide, by decide⟩

/-- C1 (amended): an unknown axis field, series field or metric field always
fails compilation with the ValidationError naming the offending field, before
any SQL is produced; filter fields, however, are checked only to be skipped:
a dimension or dynamic filter whose field is not a dataset column contributes
no WHERE clause and no parameter and never causes a failure. -/
theorem c1_unknown_field_validation (bq : String) (cols : List ColumnMetadata)
    (x g : Option String) (ms : List Metric) (s : Option String) (f : Option Filters)
    (ob : Option String) (lim : Option Int) (m : Metric) (e : String)
    (fld : String) (vv : PyVal) (dims : List (String × PyVal))
    (conds : List (String × PyVal)) (dfs : List (String × List (String × PyVal))) :
    (truthyStr x = true → validate_column cols (x.getD "") = false →
      build_analytical_query bq cols x g ms s f ob lim
        = .error ("Campo do eixo X '" ++ x.getD "" ++ "' não existe no dataset"))
    ∧ ((truthyStr x && !(validate_column cols (x.getD ""))) = false →
       truthyStr s = true → validate_column cols (s.getD "") = false →
       build_analytical_query bq cols x g ms s f ob lim
         = .error ("Campo de série '" ++ s.getD "" ++ "' não existe no dataset"))
    ∧ ((truthyStr x && !(validate_column cols (x.getD ""))) = false →
       (truthyStr s && !(validate_column cols (s.getD ""))) = false →
       validateMetrics cols ms = some e →
       build_analytical_query bq cols x g ms s f ob lim = .error e)
    ∧ (m ∈ ms → metricFieldKnown cols m = false →
        (validateMetrics cols ms).isSome = true)
    ∧ (validate_column cols fld = false →
        dimensionSection cols ((fld, vv) :: dims) = dimensionSection cols dims
        ∧ dynamicSection cols ((fld, conds) :: dfs) = dynamicSection cols dfs) := by
  refine ⟨?_, ?_, ?_, validateMetrics_isSome_of_bad cols ms m, ?_⟩
  · intro hx hv
    simp [build_analytical_query, hx, hv]
  · intro h1 hs hv
    simp [build_analytical_query, h1, hs, hv]
  · intro h1 h2 hv
    simp [build_analytical_query, h1, h2, hv]
  · intro hvc
    constructor
    · simp [dimensionSection, hvc]
    · simp [dynamicSection, hvc]

/-- Witness for c1_unknown_field_validation: an unknown axis field yields the
exact ValidationError. -/
theorem c1_witness :
    build_analytical_query "SELECT 1" colsEx (some "zzz") Option.none [] Option.none
        Option.none (some "metric_date") Option.none
      = .error "Campo do eixo X 'zzz' não existe no dataset" :=
  (c1_unknown_field_validation "SELECT 1" colsEx (some "zzz") Option.none [] Option.none
    Option.none (some "metric_date") Option.none ⟨Option.none, Option.none⟩ ""
    "zzz" PyVal.none [] [] []).1 (by decide) (by decide)

/-! ## Claim C9 -/

/-- C9: compilation is deterministic: two calls on the same
(base_query, columns, intent) inputs give the same SQL string and parameter
map; the where-clauses and parameters are accumulated in the fixed
application order (date range, dimension filters, dynamic filters, custom
fragment, block fragment), and the i-th metric of the intent always lands in
select position i+1 with the 1-based alias. -/
theorem c9_compile_deterministic (bq : String) (cols : List ColumnMetadata)
    (x g : Option String) (ms : List Metric) (s : Option String)
    (ob : Option String) (lim : Option Int) (F : Filters) (i : Nat) (m : Metric)
    (r1 r2 : Except String (String × List (String × PyVal)))
    (h1 : build_analytical_query bq cols x g ms s (some F) ob lim = r1)
    (h2 : build_analytical_query bq cols x g ms s (some F) ob lim = r2) :
    r1 = r2
    ∧ buildWhere cols x (some F)
      = pairApp (dateFilterSection x F)
          (pairApp (dimensionSection cols F.dimensions)
            (pairApp (dynamicSection cols F.dynamic_filters)
              (customFilterSection F ++ blockFilterSection F, [])))
    ∧ (ms[i]? = some m →
        (selectParts cols x g ms s)[i + 1]? = some (metricSelectPart i m)) := by
  refine ⟨h1.symm.trans h2, ?_, ?_⟩
  · simp [buildWhere, pairApp, List.append_assoc]
  · intro hm
    have hlen : i < ms.length := by
      by_contra hge
      rw [List.getElem?_eq_none (Nat.le_of_not_lt hge)] at hm
      cases hm
    rw [selectParts]
    simp only [List.singleton_append, List.cons_append, List.getElem?_cons_succ]
    rw [List.getElem?_append, if_pos (by simpa using hlen), List.nil_append,
      List.getElem?_map, List.getElem?_enum, hm]
    rfl

/-- Witness for c9_compile_deterministic at a concrete filtered intent. -/
theorem c9_witness :
    build_analytical_query "SELECT 1" colsEx (some "sold_at") Option.none
        [⟨some "amount", some "sum"⟩] Option.none
        (some ⟨some (PyVal.str "2024-01-01"), Option.none,
               [("region", PyVal.list [PyScalar.str "A"])],
               [("amount", [("gte", PyVal.int 10)])],
               Option.none, Option.none, Option.none⟩)
        (some "metric_date") Option.none
      = build_analytical_query "SELECT 1" colsEx (some "sold_at") Option.none
        [⟨some "amount", some "sum"⟩] Option.none
        (some ⟨some (PyVal.str "2024-01-01"), Option.none,
               [("region", PyVal.list [PyScalar.str "A"])],
               [("amount", [("gte", PyVal.int 10)])],
               Option.none, Option.none, Option.none⟩)
        (some "metric_date") Option.none
    ∧ buildWhere colsEx (some "sold_at")
        (some ⟨some (PyVal.str "2024-01-01"), Option.none,
               [("region", PyVal.list [PyScalar.str "A"])],
               [("amount", [("gte", PyVal.int 10)])],
               Option.none, Option.none, Option.none⟩)
      = pairApp (dateFilterSection (some "sold_at")
          ⟨some (PyVal.str "2024-01-01"), Option.none,
           [("region", PyVal.list [PyScalar.str "A"])],
           [("amount", [("gte", PyVal.int 10)])],
           Option.none, Option.none, Option.none⟩)
          (pairApp (dimensionSection colsEx [("region", PyVal.list [PyScalar.str "A"])])
            (pairApp (dynamicSection colsEx [("amount", [("gte", PyVal.int 10)])])
              (customFilterSection ⟨some (PyVal.str "2024-01-01"), Option.none,
                 [("region", PyVal.list [PyScalar.str "A"])],
                 [("amount", [("gte", PyVal.int 10)])],
                 Option.none, Option.none, Option.none⟩
               ++ blockFilterSection ⟨some (PyVal.str "2024-01-01"), Option.none,
                 [("region", PyVal.list [PyScalar.str "A"])],
                 [("amount", [("gte", PyVal.int 10)])],
                 Option.none, Option.none, Option.none⟩, [])))
    ∧ (([⟨some "amount", some "sum"⟩] : List Metric)[0]? = some ⟨some "amount", some "sum"⟩ →
        (selectParts colsEx (some "sold_at") Option.none [⟨some "amount", some "sum"⟩]
          Option.none)[0 + 1]?
        = some (metricSelectPart 0 ⟨some "amount", some "sum"⟩)) :=
  c9_compile_deterministic "SELECT 1" colsEx (some "sold_at") Option.none
    [⟨some "amount", some "sum"⟩] Option.none (some "metric_date") Option.none
    ⟨some (PyVal.str "2024-01-01"), Option.none,
     [("region", PyVal.list [PyScalar.str "A"])],
     [("amount", [("gte", PyVal.int 10)])],
     Option.none, Option.none, Option.none⟩
    0 ⟨some "amount", some "sum"⟩ _ _ rfl rfl

/-! ## Claim C2: helper lemmas -/

theorem strAppendAssoc (a b c : String) : a ++ b ++ c = a ++ (b ++ c) := by
  cases a with
  | mk la =>
    cases b with
    | mk lb =>
      cases c with
      | mk lc =>
        show String.mk ((la ++ lb) ++ lc) = String.mk (la ++ (lb ++ lc))
        rw [List.append_assoc]

/-- Inversion of a successful compile: the SQL is the joined query parts, the
parameters come from the filter block, and all validation checks passed. -/
theorem build_ok_inversion (bq : String) (cols : List ColumnMetadata)
    (x g : Option String) (ms : List Metric) (s : Option String) (f : Option Filters)
    (ob : Option String) (lim : Option Int) (sql : String) (ps : List (String × PyVal))
    (hok : build_analytical_query bq cols x g ms s f ob lim = .ok (sql, ps)) :
    sql = joinSep "\n" (queryParts bq cols x g ms s f ob lim)
    ∧ ps = (buildWhere cols x f).2
    ∧ (truthyStr x && !(validate_column cols (x.getD ""))) = false
    ∧ (truthyStr s && !(validate_column cols (s.getD ""))) = false
    ∧ validateMetrics cols ms = Option.none := by
  rw [build_analytical_query] at hok
  split at hok
  · exact Except.noConfusion hok
  · rename_i hc1
    split at hok
    · exact Except.noConfusion hok
    · rename_i hc2
      split at hok
      · exact Except.noConfusion hok
      · rename_i e hv
        split at hok
        · exact Except.noConfusion hok
        · rw [Except.ok.injEq, Prod.mk.injEq] at hok
          refine ⟨hok.1.symm, hok.2.symm, ?_, ?_, ?_⟩
          · exact Bool.not_eq_true _ ▸ (Bool.eq_false_iff.mpr hc1)
          · exact Bool.eq_false_iff.mpr hc2
          · exact hv

theorem bool_ne_false (b : Bool) (h : ¬ b = false) : b = true := by
  cases b
  · exact absurd rfl h
  · rfl

/-- The metric-validation loop succeeds only when every metric names an
existing column with an allowed aggregation. -/
theorem validateMetrics_none_sound (cols : List ColumnMetadata) (ms : List Metric)
    (h : validateMetrics cols ms = Option.none) :
    ∀ m ∈ ms, metricFieldKnown cols m = true
      ∧ validate_aggregation cols (m.field.getD "") m.aggregation = true := by
  induction ms with
  | nil => intro m hm; cases hm
  | cons m0 rest ih =>
    intro m hm
    rw [validateMetrics] at h
    by_cases h1 : (match m0.field with
        | some fl => validate_column cols fl
        | Option.none => false) = false
    · rw [if_pos (by simp [h1])] at h
      exact Option.noConfusion h
    · rw [if_neg (by simp [bool_ne_false _ h1])] at h
      by_cases h2 : validate_aggregation cols (m0.field.getD "") m0.aggregation = false
      · rw [if_pos (by simp [h2])] at h
        exact Option.noConfusion h
      · rw [if_neg (by simp [bool_ne_false _ h2])] at h
        rcases List.mem_cons.mp hm with rfl | hm2
        · exact ⟨by simpa [metricFieldKnown] using bool_ne_false _ h1,
                 bool_ne_false _ h2⟩
        · exact ih h m hm2

theorem containsSub_of_eq_append_right (pre : String) {c mid : String} (h : c = pre ++ mid) :
    ContainsSub c mid := h ▸ containsSub_right pre mid

theorem containsSub_of_eq_middle (pre post : String) {c mid : String} (h : c = pre ++ mid ++ post) :
    ContainsSub c mid := h ▸ containsSub_middle pre mid post

/-- The where-clause list of the date-filter block, read off the pair. -/
theorem dateFilterSection_fst (x : Option String) (F : Filters) :
    (dateFilterSection x F).1
      = (if truthyStr x && truthyVal F.date_start then [x.getD "" ++ " >= %(date_start)s"]
         else [])
        ++ (if truthyStr x && truthyVal F.date_end then [x.getD "" ++ " <= %(date_end)s"]
            else []) := by
  rw [dateFilterSection]
  split_ifs <;> rfl

set_option maxHeartbeats 1000000 in
/-- The where-clause of a dynamic condition depends only on the field, the
operator and whether the value is a non-empty list, never on the value. -/
theorem dynCondition_fst (fld op : String) (v : PyVal) :
    (dynCondition fld op v).1
      = (if op = "gte" then [fld ++ " >= %(" ++ ("dyn_" ++ fld ++ "_" ++ op) ++ ")s"]
         else if op = "lte" then [fld ++ " <= %(" ++ ("dyn_" ++ fld ++ "_" ++ op) ++ ")s"]
         else if op = "gt" then [fld ++ " > %(" ++ ("dyn_" ++ fld ++ "_" ++ op) ++ ")s"]
         else if op = "lt" then [fld ++ " < %(" ++ ("dyn_" ++ fld ++ "_" ++ op) ++ ")s"]
         else if op = "eq" then [fld ++ " = %(" ++ ("dyn_" ++ fld ++ "_" ++ op) ++ ")s"]
         else if op = "in" then
           (if isNonEmptyList v then
              [fld ++ " = ANY(%(" ++ ("dyn_" ++ fld ++ "_" ++ op) ++ ")s)"]
            else [])
         else []) := by
  cases v with
  | list l =>
    cases l with
    | nil => rw [dynCondition]; split_ifs <;> simp_all [isNonEmptyList]
    | cons a t => rw [dynCondition]; split_ifs <;> simp_all [isNonEmptyList]
  | none =>
    rw [dynCondition]
    case x_1 => intro l h; exact PyVal.noConfusion h
    split_ifs with hg hl hgt hlt he hin hne
    · rfl
    · rfl
    · rfl
    · rfl
    · rfl
    · simp [isNonEmptyList] at hne
    · rfl
    · rfl
  | str s =>
    rw [dynCondition]
    case x_1 => intro l h; exact PyVal.noConfusion h
    split_ifs with hg hl hgt hlt he hin hne
    · rfl
    · rfl
    · rfl
    · rfl
    · rfl
    · simp [isNonEmptyList] at hne
    · rfl
    · rfl
  | int n =>
    rw [dynCondition]
    case x_1 => intro l h; exact PyVal.noConfusion h
    split_ifs with hg hl hgt hlt he hin hne
    · rfl
    · rfl
    · rfl
    · rfl
    · rfl
    · simp [isNonEmptyList] at hne
    · rfl
    · rfl
  | dt d =>
    rw [dynCondition]
    case x_1 => intro l h; exact PyVal.noConfusion h
    split_ifs with hg hl hgt hlt he hin hne
    · rfl
    · rfl
    · rfl
    · rfl
    · rfl
    · simp [isNonEmptyList] at hne
    · rfl
    · rfl

/-- Two filter sets with the same shape: same truthiness of date bounds, same
dimension fields, same dynamic fields and operators with equal
non-empty-list-ness of in-values, and identical trusted fragments. The
filter VALUES may differ arbitrarily. -/
def FilterShapeEq (F F2 : Filters) : Prop :=
  truthyVal F.date_start = truthyVal F2.date_start
  ∧ truthyVal F.date_end = truthyVal F2.date_end
  ∧ List.Forall₂ (fun (a b : String × PyVal) => a.1 = b.1) F.dimensions F2.dimensions
  ∧ List.Forall₂ (fun (a b : String × List (String × PyVal)) =>
      a.1 = b.1 ∧ List.Forall₂ (fun (c d : String × PyVal) =>
        c.1 = d.1 ∧ isNonEmptyList c.2 = isNonEmptyList d.2) a.2 b.2)
      F.dynamic_filters F2.dynamic_filters
  ∧ F.custom = F2.custom ∧ F.where_clause = F2.where_clause
  ∧ F.block_filter = F2.block_filter

theorem dynConditions_fst_shape (fld : String) {c1 c2 : List (String × PyVal)}
    (h : List.Forall₂ (fun c d => c.1 = d.1 ∧ isNonEmptyList c.2 = isNonEmptyList d.2) c1 c2) :
    (dynConditions fld c1).1 = (dynConditions fld c2).1 := by
  induction h with
  | nil => rfl
  | @cons a b l1 l2 hab htail ih =>
    obtain ⟨op1, v1⟩ := a
    obtain ⟨op2, v2⟩ := b
    obtain ⟨hop, hval⟩ := hab
    cases hop
    simp only [dynConditions]
    rw [dynCondition_fst, dynCondition_fst, hval, ih]

theorem dimensionSection_fst_shape (cols : List ColumnMetadata)
    {d1 d2 : List (String × PyVal)}
    (h : List.Forall₂ (fun a b => a.1 = b.1) d1 d2) :
    (dimensionSection cols d1).1 = (dimensionSection cols d2).1 := by
  induction h with
  | nil => rfl
  | @cons a b l1 l2 hab htail ih =>
    obtain ⟨f1, v1⟩ := a
    obtain ⟨f2, v2⟩ := b
    cases hab
    by_cases hv : validate_column cols f1
    · simp only [dimensionSection, if_pos hv]
      rw [ih]
    · simp only [dimensionSection, if_neg hv]
      exact ih

theorem dynamicSection_fst_shape (cols : List ColumnMetadata)
    {d1 d2 : List (String × List (String × PyVal))}
    (h : List.Forall₂ (fun a b => a.1 = b.1
          ∧ List.Forall₂ (fun c d => c.1 = d.1
              ∧ isNonEmptyList c.2 = isNonEmptyList d.2) a.2 b.2) d1 d2) :
    (dynamicSection cols d1).1 = (dynamicSection cols d2).1 := by
  induction h with
  | nil => rfl
  | @cons a b l1 l2 hab htail ih =>
    obtain ⟨f1, c1⟩ := a
    obtain ⟨f2, c2⟩ := b
    obtain ⟨hf, hcs⟩ := hab
    cases hf
    simp only [dynamicSection]
    by_cases hv : validate_column cols f1
    · rw [if_pos hv, if_pos hv, dynConditions_fst_shape f1 hcs, ih]
    · rw [if_neg hv, if_neg hv, ih]

theorem ph_chain (fld lit pre pn : String) (hl : lit = pre ++ "%(") :
    ContainsSub (fld ++ lit ++ pn ++ ")s") ("%(" ++ pn ++ ")s") := by
  subst hl
  apply containsSub_of_eq_append_right (fld ++ pre)
  simp only [strAppendAssoc]

theorem ph_any (fld pn : String) :
    ContainsSub (fld ++ " = ANY(%(" ++ pn ++ ")s)") ("%(" ++ pn ++ ")s") := by
  apply containsSub_of_eq_middle (fld ++ " = ANY(") ")"
  have e1 : (" = ANY(%(" : String) = " = ANY(" ++ "%(" := by decide
  have e2 : ((")s)" : String)) = ")s" ++ ")" := by decide
  rw [e1, e2]
  simp only [strAppendAssoc]

theorem ph_dim (f : String) :
    ContainsSub (f ++ " = ANY(%(dim_" ++ f ++ ")s)") ("%(" ++ ("dim_" ++ f) ++ ")s") := by
  apply containsSub_of_eq_middle (f ++ " = ANY(") ")"
  have e1 : (" = ANY(%(dim_" : String) = " = ANY(" ++ "%(" ++ "dim_" := by decide
  have e2 : ((")s)" : String)) = ")s" ++ ")" := by decide
  rw [e1, e2]
  simp only [strAppendAssoc]

/-- The parameter list of the date-filter block, read off the pair. -/
theorem dateFilterSection_snd (x : Option String) (F : Filters) :
    (dateFilterSection x F).2
      = (if truthyStr x && truthyVal F.date_start then
           [("date_start", F.date_start.getD PyVal.none)] else [])
        ++ (if truthyStr x && truthyVal F.date_end then
              [("date_end", F.date_end.getD PyVal.none)] else []) := by
  rw [dateFilterSection]
  split_ifs <;> rfl

/-- Every date-filter parameter is referenced by a placeholder inside one of
the emitted date-filter clauses. -/
theorem dateFilterSection_params (x : Option String) (F : Filters) (n : String) (v : PyVal)
    (h : (n, v) ∈ (dateFilterSection x F).2) :
    ∃ c ∈ (dateFilterSection x F).1, ContainsSub c ("%(" ++ n ++ ")s") := by
  rw [dateFilterSection_snd] at h
  rw [dateFilterSection_fst]
  rcases List.mem_append.mp h with h1 | h2
  · by_cases hc : (truthyStr x && truthyVal F.date_start) = true
    · rw [if_pos hc] at h1
      have hn : n = "date_start" := congrArg Prod.fst (List.mem_singleton.mp h1)
      subst hn
      refine ⟨x.getD "" ++ " >= %(date_start)s",
        List.mem_append_left _ (by rw [if_pos hc]; exact List.mem_singleton.mpr rfl), ?_⟩
      apply containsSub_of_eq_append_right (x.getD "" ++ " >= ")
      rw [strAppendAssoc]
      congr 1
    · rw [if_neg hc] at h1
      cases h1
  · by_cases hc : (truthyStr x && truthyVal F.date_end) = true
    · rw [if_pos hc] at h2
      have hn : n = "date_end" := congrArg Prod.fst (List.mem_singleton.mp h2)
      subst hn
      refine ⟨x.getD "" ++ " <= %(date_end)s",
        List.mem_append_right _ (by rw [if_pos hc]; exact List.mem_singleton.mpr rfl), ?_⟩
      apply containsSub_of_eq_append_right (x.getD "" ++ " <= ")
      rw [strAppendAssoc]
      congr 1
    · rw [if_neg hc] at h2
      cases h2

/-- Every dimension-filter parameter is referenced by a placeholder inside
one of the emitted dimension clauses. -/
theorem dimensionSection_params (cols : List ColumnMetadata)
    (dims : List (String × PyVal)) (n : String) (v : PyVal)
    (h : (n, v) ∈ (dimensionSection cols dims).2) :
    ∃ c ∈ (dimensionSection cols dims).1, ContainsSub c ("%(" ++ n ++ ")s") := by
  induction dims with
  | nil => cases h
  | cons p tail ih =>
    obtain ⟨f, vals⟩ := p
    by_cases hv : validate_column cols f
    · simp only [dimensionSection, if_pos hv] at h ⊢
      rcases List.mem_cons.mp h with heq | htail
      · have hn : n = "dim_" ++ f := congrArg Prod.fst heq
        subst hn
        exact ⟨f ++ " = ANY(%(dim_" ++ f ++ ")s)", List.mem_cons_self _ _, ph_dim f⟩
      · obtain ⟨c, hc, hcc⟩ := ih htail
        exact ⟨c, List.mem_cons_of_mem _ hc, hcc⟩
    · simp only [dimensionSection, if_neg hv] at h ⊢
      exact ih h

set_option maxHeartbeats 1000000 in
/-- Every dynamic-condition parameter is referenced by a placeholder inside
the emitted comparison clause. -/
theorem dynCondition_params (fld op : String) (v : PyVal) (n : String) (val : PyVal)
    (h : (n, val) ∈ (dynCondition fld op v).2) :
    ∃ c ∈ (dynCondition fld op v).1, ContainsSub c ("%(" ++ n ++ ")s") := by
  rw [dynCondition.eq_def] at h ⊢
  split_ifs at h ⊢ with hg hl hgt hlt he hin
  · have hn : n = "dyn_" ++ fld ++ "_" ++ op := congrArg Prod.fst (List.mem_singleton.mp h)
    subst hn
    exact ⟨_, List.mem_singleton.mpr rfl, ph_chain fld " >= %(" " >= " _ (by decide)⟩
  · have hn : n = "dyn_" ++ fld ++ "_" ++ op := congrArg Prod.fst (List.mem_singleton.mp h)
    subst hn
    exact ⟨_, List.mem_singleton.mpr rfl, ph_chain fld " <= %(" " <= " _ (by decide)⟩
  · have hn : n = "dyn_" ++ fld ++ "_" ++ op := congrArg Prod.fst (List.mem_singleton.mp h)
    subst hn
    exact ⟨_, List.mem_singleton.mpr rfl, ph_chain fld " > %(" " > " _ (by decide)⟩
  · have hn : n = "dyn_" ++ fld ++ "_" ++ op := congrArg Prod.fst (List.mem_singleton.mp h)
    subst hn
    exact ⟨_, List.mem_singleton.mpr rfl, ph_chain fld " < %(" " < " _ (by decide)⟩
  · have hn : n = "dyn_" ++ fld ++ "_" ++ op := congrArg Prod.fst (List.mem_singleton.mp h)
    subst hn
    exact ⟨_, List.mem_singleton.mpr rfl, ph_chain fld " = %(" " = " _ (by decide)⟩
  · cases v with
    | list l =>
      cases l with
      | nil => cases h
      | cons a t =>
        simp only [List.length_cons] at h ⊢
        rw [if_pos (Nat.succ_pos t.length)] at h ⊢
        have hn : n = "dyn_" ++ fld ++ "_" ++ op :=
          congrArg Prod.fst (List.mem_singleton.mp h)
        subst hn
        refine ⟨fld ++ " = ANY(%(" ++ ("dyn_" ++ fld ++ "_" ++ op) ++ ")s)", ?_, ?_⟩
        · show _ ∈ [fld ++ " = ANY(%(" ++ ("dyn_" ++ fld ++ "_" ++ op) ++ ")s)"]
          exact List.mem_singleton.mpr rfl
        · exact ph_any fld _
    | none => cases h
    | str s => cases h
    | int m => cases h
    | dt d => cases h
  · cases h

/-- Every dynamic-conditions parameter is referenced inside one of the
emitted clauses of the same field. -/
theorem dynConditions_params (fld : String) (conds : List (String × PyVal))
    (n : String) (val : PyVal) (h : (n, val) ∈ (dynConditions fld conds).2) :
    ∃ c ∈ (dynConditions fld conds).1, ContainsSub c ("%(" ++ n ++ ")s") := by
  induction conds with
  | nil => cases h
  | cons p tail ih =>
    obtain ⟨op, v⟩ := p
    simp only [dynConditions] at h ⊢
    rcases List.mem_append.mp h with h1 | h2
    · obtain ⟨c, hc, hcc⟩ := dynCondition_params fld op v n val h1
      exact ⟨c, List.mem_append_left _ hc, hcc⟩
    · obtain ⟨c, hc, hcc⟩ := ih h2
      exact ⟨c, List.mem_append_right _ hc, hcc⟩

/-- Every dynamic-filters parameter is referenced inside one of the emitted
dynamic clauses. -/
theorem dynamicSection_params (cols : List ColumnMetadata)
    (dfs : List (String × List (String × PyVal))) (n : String) (val : PyVal)
    (h : (n, val) ∈ (dynamicSection cols dfs).2) :
    ∃ c ∈ (dynamicSection cols dfs).1, ContainsSub c ("%(" ++ n ++ ")s") := by
  induction dfs with
  | nil => cases h
  | cons p tail ih =>
    obtain ⟨fld, conds⟩ := p
    simp only [dynamicSection] at h ⊢
    rcases List.mem_append.mp h with h1 | h2
    · by_cases hv : validate_column cols fld
      · rw [if_pos hv] at h1 ⊢
        obtain ⟨c, hc, hcc⟩ := dynConditions_params fld conds n val h1
        exact ⟨c, List.mem_append_left _ hc, hcc⟩
      · rw [if_neg hv] at h1
        cases h1
    · obtain ⟨c, hc, hcc⟩ := ih h2
      exact ⟨c, List.mem_append_right _ hc, hcc⟩

/-- Every parameter of the whole filter block is referenced by its named
placeholder inside one of the emitted where-clauses. -/
theorem buildWhere_params (cols : List ColumnMetadata) (x : Option String)
    (f : Option Filters) (n : String) (val : PyVal)
    (h : (n, val) ∈ (buildWhere cols x f).2) :
    ∃ c ∈ (buildWhere cols x f).1, ContainsSub c ("%(" ++ n ++ ")s") := by
  cases f with
  | none => cases h
  | some F =>
    simp only [buildWhere] at h ⊢
    rcases List.mem_append.mp h with h12 | h3
    · rcases List.mem_append.mp h12 with h1 | h2
      · obtain ⟨c, hc, hcc⟩ := dateFilterSection_params x F n val h1
        exact ⟨c, List.mem_append_left _ (List.mem_append_left _
          (List.mem_append_left _ (List.mem_append_left _ hc))), hcc⟩
      · obtain ⟨c, hc, hcc⟩ := dimensionSection_params cols F.dimensions n val h2
        exact ⟨c, List.mem_append_left _ (List.mem_append_left _
          (List.mem_append_left _ (List.mem_append_right _ hc))), hcc⟩
    · obtain ⟨c, hc, hcc⟩ := dynamicSection_params cols F.dynamic_filters n val h3
      exact ⟨c, List.mem_append_left _ (List.mem_append_left _
        (List.mem_append_right _ hc)), hcc⟩

/-- The emitted where-clause list depends only on the shape of the filters,
not on the filter values. -/
theorem buildWhere_fst_shape (cols : List ColumnMetadata) (x : Option String)
    (F F2 : Filters) (h : FilterShapeEq F F2) :
    (buildWhere cols x (some F)).1 = (buildWhere cols x (some F2)).1 := by
  obtain ⟨h1, h2, hdim, hdyn, hc, hw, hb⟩ := h
  simp only [buildWhere]
  rw [dateFilterSection_fst, dateFilterSection_fst, h1, h2,
    dimensionSection_fst_shape cols hdim, dynamicSection_fst_shape cols hdyn]
  simp only [customFilterSection, blockFilterSection, hc, hw, hb]

/-- The compiled SQL text depends only on the shape of the filters, never on
the filter values (which travel exclusively through the parameter map). -/
theorem build_map_fst_shape (bq : String) (cols : List ColumnMetadata)
    (x g : Option String) (ms : List Metric) (s : Option String)
    (ob : Option String) (lim : Option Int) (F F2 : Filters)
    (h : FilterShapeEq F F2) :
    (build_analytical_query bq cols x g ms s (some F) ob lim).map Prod.fst
      = (build_analytical_query bq cols x g ms s (some F2) ob lim).map Prod.fst := by
  have hW := buildWhere_fst_shape cols x F F2 h
  have hQP : queryParts bq cols x g ms s (some F) ob lim
      = queryParts bq cols x g ms s (some F2) ob lim := by
    simp only [queryParts, hW]
  simp only [build_analytical_query]
  split_ifs
  · rfl
  · rfl
  · cases hv : validateMetrics cols ms <;> simp only [hv]
  · cases hv : validateMetrics cols ms <;> simp [hv, hQP, Except.map]

/-- Every member of the where-clause list occurs inside the compiled SQL. -/
theorem whereClause_in_sql (bq : String) (cols : List ColumnMetadata)
    (x g : Option String) (ms : List Metric) (s : Option String) (f : Option Filters)
    (ob : Option String) (lim : Option Int) (c : String)
    (hc : c ∈ (buildWhere cols x f).1) :
    ContainsSub (joinSep "\n" (queryParts bq cols x g ms s f ob lim)) c := by
  have hne : (buildWhere cols x f).1.isEmpty = false := by
    cases hw : (buildWhere cols x f).1 with
    | nil => rw [hw] at hc; cases hc
    | cons a l => rfl
  have hpart : ("  " ++ joinSep "\n  AND " (buildWhere cols x f).1)
      ∈ queryParts bq cols x g ms s f ob lim := by
    rw [queryParts]
    simp [hne]
  exact containsSub_trans (joinSep_contains_mem hpart)
    (containsSub_trans (containsSub_right "  " _) (joinSep_contains_mem hc))

/-- Every emitted dimension-filter clause starts with a validated column
name. -/
theorem dimensionSection_clause_field (cols : List ColumnMetadata)
    (dims : List (String × PyVal)) :
    ∀ c ∈ (dimensionSection cols dims).1,
      ∃ fl rest, validate_column cols fl = true ∧ c = fl ++ rest := by
  induction dims with
  | nil => intro c hc; cases hc
  | cons p tail ih =>
    obtain ⟨f, v⟩ := p
    intro c hc
    by_cases hv : validate_column cols f
    · simp only [dimensionSection, if_pos hv] at hc
      rcases List.mem_cons.mp hc with rfl | htail
      · exact ⟨f, " = ANY(%(dim_" ++ f ++ ")s)", hv, by simp only [strAppendAssoc]⟩
      · exact ih c htail
    · simp only [dimensionSection, if_neg hv] at hc
      exact ih c hc

/-- Every clause of a single dynamic condition starts with its field name. -/
theorem dynCondition_clause_field (fld op : String) (v : PyVal) :
    ∀ c ∈ (dynCondition fld op v).1, ∃ rest, c = fld ++ rest := by
  intro c hc
  rw [dynCondition_fst] at hc
  split_ifs at hc with h1 h2 h3 h4 h5 h6 h7
  · refine ⟨" >= %(" ++ ("dyn_" ++ fld ++ "_" ++ op) ++ ")s", ?_⟩
    rw [List.mem_singleton.mp hc]
    simp only [strAppendAssoc]
  · refine ⟨" <= %(" ++ ("dyn_" ++ fld ++ "_" ++ op) ++ ")s", ?_⟩
    rw [List.mem_singleton.mp hc]
    simp only [strAppendAssoc]
  · refine ⟨" > %(" ++ ("dyn_" ++ fld ++ "_" ++ op) ++ ")s", ?_⟩
    rw [List.mem_singleton.mp hc]
    simp only [strAppendAssoc]
  · refine ⟨" < %(" ++ ("dyn_" ++ fld ++ "_" ++ op) ++ ")s", ?_⟩
    rw [List.mem_singleton.mp hc]
    simp only [strAppendAssoc]
  · refine ⟨" = %(" ++ ("dyn_" ++ fld ++ "_" ++ op) ++ ")s", ?_⟩
    rw [List.mem_singleton.mp hc]
    simp only [strAppendAssoc]
  · refine ⟨" = ANY(%(" ++ ("dyn_" ++ fld ++ "_" ++ op) ++ ")s)", ?_⟩
    rw [List.mem_singleton.mp hc]
    simp only [strAppendAssoc]
  · cases hc
  · cases hc

/-- Every clause of a dynamic-conditions dict starts with the field name. -/
theorem dynConditions_clause_field (fld : String) (conds : List (String × PyVal)) :
    ∀ c ∈ (dynConditions fld conds).1, ∃ rest, c = fld ++ rest := by
  induction conds with
  | nil => intro c hc; cases hc
  | cons pc tailc ihc =>
    obtain ⟨op, v⟩ := pc
    intro c hc
    simp only [dynConditions] at hc
    rcases List.mem_append.mp hc with ha | hb
    · exact dynCondition_clause_field fld op v c ha
    · exact ihc c hb

/-- Every emitted dynamic-filter clause starts with a validated column name. -/
theorem dynamicSection_clause_field (cols : List ColumnMetadata)
    (dfs : List (String × List (String × PyVal))) :
    ∀ c ∈ (dynamicSection cols dfs).1,
      ∃ fl rest, validate_column cols fl = true ∧ c = fl ++ rest := by
  induction dfs with
  | nil => intro c hc; cases hc
  | cons p tail ih =>
    obtain ⟨fld, conds⟩ := p
    intro c hc
    simp only [dynamicSection] at hc
    rcases List.mem_append.mp hc with h1 | h2
    · by_cases hv : validate_column cols fld
      · rw [if_pos hv] at h1
        obtain ⟨rest, hr⟩ := dynConditions_clause_field fld conds c h1
        exact ⟨fld, rest, hv, hr⟩
      · rw [if_neg hv] at h1
        cases h1
    · exact ih c h2

set_option maxRecDepth 100000 in
/-- C2 (counterexample): the order_by argument is interpolated into the SQL
text without any validation against the column-metadata set; here the string
not_a_column is not a dataset column yet the compile succeeds and the SQL
ends with ORDER BY not_a_column. -/
theorem c2_counterexample :
    validate_column colsEx "not_a_column" = false
    ∧ build_analytical_query "SELECT 1" colsEx (some "region") Option.none []
        Option.none Option.none (some "not_a_column") Option.none
      = .ok ("WITH __base_data AS (\n  SELECT 1\n)\nSELECT\n  region AS metric_date\nFROM __base_data\nGROUP BY metric_date\nORDER BY not_a_column", [])
    ∧ ContainsSub "WITH __base_data AS (\n  SELECT 1\n)\nSELECT\n  region AS metric_date\nFROM __base_data\nGROUP BY metric_date\nORDER BY not_a_column"
        "ORDER BY not_a_column" :=
  ⟨by decide, by decide, by decide⟩

/-- C2 (amended): the injection-defense split holds for everything except the
order_by expression: the SQL text is a function of the filter shape only
(filter values never reach it), every parameter of a successful compile is
referenced in the SQL via its named placeholder, and the axis, series,
metric and filter-clause identifiers all come from the validated column set;
the order_by string, however, is interpolated verbatim without validation
(its caller-side default metric_date is a generated alias, not a column). -/
theorem c2_injection_boundary (bq : String) (cols : List ColumnMetadata)
    (x g : Option String) (ms : List Metric) (s : Option String)
    (ob : Option String) (lim : Option Int) (F F2 : Filters)
    (sql : String) (ps : List (String × PyVal)) (n : String) (v : PyVal) (m : Metric) :
    (FilterShapeEq F F2 →
      (build_analytical_query bq cols x g ms s (some F) ob lim).map Prod.fst
        = (build_analytical_query bq cols x g ms s (some F2) ob lim).map Prod.fst)
    ∧ (build_analytical_query bq cols x g ms s (some F) ob lim = .ok (sql, ps) →
        ((n, v) ∈ ps → ContainsSub sql ("%(" ++ n ++ ")s"))
        ∧ (truthyStr x = true → validate_column cols (x.getD "") = true)
        ∧ (truthyStr s = true → validate_column cols (s.getD "") = true)
        ∧ (m ∈ ms → metricFieldKnown cols m = true
            ∧ validate_aggregation cols (m.field.getD "") m.aggregation = true))
    ∧ (∀ c ∈ (dimensionSection cols F.dimensions).1,
        ∃ fl rest, validate_column cols fl = true ∧ c = fl ++ rest)
    ∧ (∀ c ∈ (dynamicSection cols F.dynamic_filters).1,
        ∃ fl rest, validate_column cols fl = true ∧ c = fl ++ rest) := by
  refine ⟨build_map_fst_shape bq cols x g ms s ob lim F F2, ?_,
    dimensionSection_clause_field cols F.dimensions,
    dynamicSection_clause_field cols F.dynamic_filters⟩
  intro hok
  obtain ⟨hsql, hps, hx, hs, hv⟩ :=
    build_ok_inversion bq cols x g ms s (some F) ob lim sql ps hok
  refine ⟨?_, ?_, ?_, ?_⟩
  · intro hmem
    rw [hps] at hmem
    obtain ⟨c, hc, hcc⟩ := buildWhere_params cols x (some F) n v hmem
    rw [hsql]
    exact containsSub_trans (whereClause_in_sql bq cols x g ms s (some F) ob lim c hc) hcc
  · intro hxt
    rw [hxt] at hx
    simpa using hx
  · intro hst
    rw [hst] at hs
    simpa using hs
  · exact fun hm => validateMetrics_none_sound cols ms hv m hm

set_option maxRecDepth 100000 in
/-- Witness for c2_injection_boundary: a concrete filtered compile where the
dyn_amount_gte parameter is referenced via its placeholder and the axis
column is validated. -/
theorem c2_witness :
    ContainsSub "WITH __base_data AS (\n  SELECT 1\n)\nSELECT\n  sold_at AS metric_date\nFROM __base_data\nWHERE\n  sold_at >= %(date_start)s\n  AND region = ANY(%(dim_region)s)\n  AND amount >= %(dyn_amount_gte)s\nGROUP BY metric_date\nORDER BY metric_date"
      ("%(" ++ "dyn_amount_gte" ++ ")s")
    ∧ validate_column colsEx "sold_at" = true := by
  have happ := c2_injection_boundary "SELECT 1" colsEx (some "sold_at") Option.none []
    Option.none (some "metric_date") Option.none
    ⟨some (PyVal.str "2024-01-01"), Option.none,
     [("region", PyVal.list [PyScalar.str "A"])],
     [("amount", [("gte", PyVal.int 10)])], Option.none, Option.none, Option.none⟩
    ⟨some (PyVal.str "2024-01-01"), Option.none,
     [("region", PyVal.list [PyScalar.str "A"])],
     [("amount", [("gte", PyVal.int 10)])], Option.none, Option.none, Option.none⟩
    "WITH __base_data AS (\n  SELECT 1\n)\nSELECT\n  sold_at AS metric_date\nFROM __base_data\nWHERE\n  sold_at >= %(date_start)s\n  AND region = ANY(%(dim_region)s)\n  AND amount >= %(dyn_amount_gte)s\nGROUP BY metric_date\nORDER BY metric_date"
    [("date_start", PyVal.str "2024-01-01"),
     ("dim_region", PyVal.list [PyScalar.str "A"]),
     ("dyn_amount_gte", PyVal.int 10)]
    "dyn_amount_gte" (PyVal.int 10) ⟨Option.none, Option.none⟩
  exact ⟨(happ.2.1 (by decide)).1 (by decide), (happ.2.1 (by decide)).2.1 (by decide)⟩
